import Mathlib

set_option maxRecDepth 100000

namespace Unicorn

/-- RGB888 pixel: one red, green and blue byte, stored consecutively in the
frame buffers of both the 3DS producer and the Pico receiver. -/
structure Pixel where
  r : Nat
  g : Nat
  b : Nat
deriving DecidableEq

/-- Frame of the 32x32 LED matrix: the 1024 pixels in row-major order
(index = y*32 + x), the byte buffers grouped in RGB triples. -/
abbrev Frame := List Pixel

/-- Number of pixels, LED_W * LED_H = 32 * 32. -/
def NUM_PIXELS : Nat := 32 * 32

/-- FRAME_SIZE: LED_W * LED_H * 3 bytes. -/
def FRAME_SIZE : Nat := 32 * 32 * 3

/-- DELTA_THRESHOLD from the 3DS producer source. -/
def DELTA_THRESHOLD : Nat := 600

/-- MAX_REQUEST_SIZE from the receiver: size of the malloc'd per-connection
request buffer. -/
def MAX_REQUEST_SIZE : Nat := 16384

/-- KEEPALIVE_TIMEOUT_POLLS from the receiver. -/
def KEEPALIVE_TIMEOUT_POLLS : Nat := 10

/-- Modulus of the uint32 g_frame_sequence counter. -/
def SEQ_MOD : Nat := 4294967296

/-- Byte stream of a frame: the RGB triples flattened, the layout of
frame_rgb / prev_frame on the producer and of the receiver buffers. -/
def frameBytes (f : Frame) : List Nat :=
  f.flatMap fun p => [p.r, p.g, p.b]

/-- One bit step of crc32_compute's inner loop:
crc = (crc >> 1) ^ (0xEDB88320 & -(crc & 1)); on uint32, -(crc & 1) is
0xFFFFFFFF when the low bit is set and 0 otherwise, so the mask is either
the polynomial or zero. -/
def crc32_round (crc : Nat) : Nat :=
  (crc >>> 1) ^^^ (if crc % 2 = 1 then 0xEDB88320 else 0)

/-- Iterated inner loop of crc32_compute (8 bit steps per byte). -/
def crc32_rounds : Nat → Nat → Nat
  | 0, crc => crc
  | j + 1, crc => crc32_rounds j (crc32_round crc)

/-- Per-byte step of crc32_compute's outer loop: xor the byte into the
register, then run the 8 bit rounds. -/
def crcStep (crc byte : Nat) : Nat := crc32_rounds 8 (crc ^^^ byte)

/-- crcStep on a zero byte: the step an all-black frame repeats, used to
evaluate concrete CRCs in bounded chunks. -/
def crcZero (crc : Nat) : Nat := crcStep crc 0

/-- crc32_compute from the 3DS producer: reflected CRC-32 over the byte
stream, seed 0xFFFFFFFF, with the final complement (~crc on uint32 equals
crc XOR 0xFFFFFFFF). -/
def crc32_compute (data : List Nat) : Nat :=
  (data.foldl crcStep 0xFFFFFFFF) ^^^ 0xFFFFFFFF

/-- Five-byte wire record the producer writes for changed pixel index px:
little-endian index (px & 0xFF, (px >> 8) & 0xFF), then the new R, G, B. -/
def deltaRecord (px : Nat) (p : Pixel) : List Nat :=
  [px &&& 0xFF, (px >>> 8) &&& 0xFF, p.r, p.g, p.b]

/-- Scan loop of send_frame: walks the (previous, new) pixel pairs with the
pixel index counting up from px, appends a deltaRecord for every differing
pair and counts it; directly after appending a record the loop breaks as
soon as the running count exceeds DELTA_THRESHOLD. Returns the final count
and the record bytes written. -/
def deltaScan : List (Pixel × Pixel) → Nat → Nat → Nat × List Nat
  | [], _, count => (count, [])
  | ab :: rest, px, count =>
    if ab.1 ≠ ab.2 then
      if count + 1 > DELTA_THRESHOLD then (count + 1, deltaRecord px ab.2)
      else
        let r := deltaScan rest (px + 1) (count + 1)
        (r.1, deltaRecord px ab.2 ++ r.2)
    else deltaScan rest (px + 1) count

/-- Delta wire message as laid out in send_frame's delta_buf when a delta is
posted: 2-byte little-endian count followed by the scan records. -/
def encode_delta (prev next : Frame) : List Nat :=
  let s := deltaScan (prev.zip next) 0 0
  [s.1 &&& 0xFF, (s.1 >>> 8) &&& 0xFF] ++ s.2

/-- One HTTP POST emitted by the producer: a delta message to /api/delta or
a full frame to /api/frame. -/
inductive WireMsg where
  | delta (bytes : List Nat)
  | full (bytes : List Nat)
deriving DecidableEq

/-- Producer state persisting across send_frame calls: prev_frame, prev_crc
and has_prev. -/
structure ProducerState where
  prev_frame : Frame
  prev_crc : Nat
  has_prev : Bool
deriving DecidableEq

/-- send_frame from the 3DS producer, with http_post modelled as succeeding;
returns the wire message emitted (none when no traffic is sent) and the
updated state. Mirrors the source: a CRC32 equal to the last sent frame's
returns immediately; otherwise, when a previous frame exists the changed
pixels are scanned, a count of at most 5 jumps to save without sending, a
count of at most DELTA_THRESHOLD posts the delta message, and any other case
(including the very first frame) posts the full frame bytes; save records
the frame, its CRC and has_prev. -/
def send_frame (s : ProducerState) (frame_rgb : Frame) : Option WireMsg × ProducerState :=
  let crc := crc32_compute (frameBytes frame_rgb)
  if s.has_prev = true ∧ crc = s.prev_crc then (none, s)
  else
    let save : ProducerState := ⟨frame_rgb, crc, true⟩
    if s.has_prev then
      let sc := deltaScan (s.prev_frame.zip frame_rgb) 0 0
      if sc.1 ≤ 5 then (none, save)
      else if sc.1 ≤ DELTA_THRESHOLD then
        (some (.delta ([sc.1 &&& 0xFF, (sc.1 >>> 8) &&& 0xFF] ++ sc.2)), save)
      else (some (.full (frameBytes frame_rgb)), save)
    else (some (.full (frameBytes frame_rgb)), save)

/-- Receiver frame store: g_ready_frame as its 1024 pixels, the prefix of
g_delta_indices written by the last delta, g_delta_count, g_frame_sequence
(a uint32, so it counts mod 2^32) and g_pending_frame. -/
structure FrameStore where
  readyFrame : Frame
  deltaIndices : List Nat
  deltaCount : Nat
  frameSequence : Nat
  pendingFrame : Bool
deriving DecidableEq

/-- Grouping of a raw byte stream into RGB pixel triples, the layout of the
receiver buffers; a trailing partial triple is dropped (never present in the
modelled paths, which always copy a multiple of 3 bytes). -/
def bytesToPixels : List Nat → List Pixel
  | r :: g :: b :: rest => ⟨r, g, b⟩ :: bytesToPixels rest
  | _ => []

/-- Entry parse of the /api/delta loop: count five-byte records, each decoded
as idx = entry[0] | (entry[1] << 8) plus the three colour bytes. The handler
runs this only after checking body_len >= 2 + count*5, so the short-input
fallback is unreachable there. -/
def parseEntries : Nat → List Nat → List (Nat × Pixel)
  | 0, _ => []
  | n + 1, e0 :: e1 :: r :: g :: b :: rest =>
      (e0 ||| (e1 <<< 8), ⟨r, g, b⟩) :: parseEntries n rest
  | _ + 1, _ => []

/-- Apply loop of the /api/delta handler: an entry with idx < 1024 overwrites
the pixel at idx in the ready frame and its index is recorded in
g_delta_indices; any other entry is skipped and the loop continues with the
remaining entries. Returns the updated frame and the recorded index list
(whose length is valid_count). -/
def applyDelta : Frame → List Nat → List (Nat × Pixel) → Frame × List Nat
  | frame, idxs, [] => (frame, idxs)
  | frame, idxs, e :: rest =>
    if e.1 < NUM_PIXELS then applyDelta (frame.set e.1 e.2) (idxs ++ [e.1]) rest
    else applyDelta frame idxs rest

def okJson : String := "\x7b\"status\":\"ok\"\x7d"

def busyJson : String := "\x7b\"status\":\"busy\"\x7d"

def noDataJson : String := "\x7b\"status\":\"error\",\"message\":\"no data\"\x7d"

def invalidDeltaJson : String := "\x7b\"status\":\"error\",\"message\":\"invalid delta\"\x7d"

def statusJson : String := "\x7b\"status\":\"running\",\"version\":\"1.0-lite\"\x7d"

def rebootingJson : String := "\x7b\"status\":\"rebooting\"\x7d"

def rebootBootloaderJson : String := "\x7b\"status\":\"rebooting to bootloader\"\x7d"

def usbErrJson : String := "\x7b\"status\":\"error\",\"message\":\"USB not connected\"\x7d"

def ipErrJson : String := "\x7b\"status\":\"error\",\"message\":\"IP not authorized\"\x7d"

/-- is_bootloader_allowed from the receiver. client_ip is the uint32 lwIP
stores for the remote address, in network byte order on this little-endian
target: the low byte is the first octet, and PP_HTONL(0x0A000001) — the
gateway 10.0.0.1 — is the u32 0x0100000A. -/
def is_bootloader_allowed (allowedIps : List Nat) (client_ip : Nat) : Bool :=
  let a := client_ip &&& 0xFF
  let b := (client_ip >>> 8) &&& 0xFF
  if client_ip = 0x0100000A then false
  else if a = 127 then true
  else if a = 10 ∧ b = 0 ∧ allowedIps.length = 0 then true
  else allowedIps.contains client_ip

/-- Environment fixed outside a request: the bootloader allow-list resolved
at startup (g_allowed_ips[0..g_allowed_ip_count-1]) and whether USB is
mounted (tud_mounted()). -/
structure ServerEnv where
  allowedIps : List Nat
  usbMounted : Bool
deriving DecidableEq

/-- Receiver globals touched by process_request: the frame store and the
one-shot flags. The float g_pending_brightness_value is not modelled (no
claim depends on it); pendingBrightness models g_pending_brightness. -/
structure ServerState where
  store : FrameStore
  rebootRequested : Bool
  rebootToBootloader : Bool
  pendingBrightness : Bool
deriving DecidableEq

/-- Parsed view of one complete HTTP request as process_request sees it:
method and uri are the two sscanf tokens, body the bytes after the first
blank line (none when "\r\n\r\n" was absent), contentLength the parsed
Content-Length value, keepAlive the wants_keep_alive result on the raw
buffer, and clientIp the pcb's remote address. -/
structure RequestInfo where
  method : String
  uri : String
  body : Option (List Nat)
  contentLength : Nat
  keepAlive : Bool
  clientIp : Nat

/-- body_len as computed in process_request: the bytes from the body start to
the end of the accumulated buffer, and 0 when there is no body or
Content-Length is 0. -/
def body_len (r : RequestInfo) : Nat :=
  match r.body with
  | some bs => if r.contentLength > 0 then bs.length else 0
  | none => 0

/-- Response sent on the TCP connection. json bodies go through the 200
keep-alive/close template; brightnessValue stands for the GET /api/brightness
body (a printf-formatted float, not modelled); optionsCors is the fixed 204
preflight; notFound the 404 text response. -/
inductive HttpResponse where
  | json (body : String)
  | brightnessValue
  | optionsCors
  | notFound
deriving DecidableEq

/-- What process_request does with the connection after answering: reset the
parse state for the next keep-alive request, or close the socket. -/
inductive ConnAction where
  | reset
  | close
deriving DecidableEq

/-- Result of processing one request: new global state, the response sent,
and the connection action. -/
structure PrOut where
  state : ServerState
  response : HttpResponse
  action : ConnAction
deriving DecidableEq

/-- Common tail of every handled route: send the response, then reset the
parse state (keep-alive) or close the connection. -/
def finishJson (s : ServerState) (resp : HttpResponse) (keepAlive : Bool) : PrOut :=
  ⟨s, resp, if keepAlive then .reset else .close⟩

/-- Exact prefix match used by the strstr model. -/
def bytesStartWith : List Nat → List Nat → Bool
  | _, [] => true
  | [], _ :: _ => false
  | h :: hs, n :: ns => h == n && bytesStartWith hs ns

/-- strstr over the byte buffer: the suffix at the first occurrence of the
needle, or none. An empty needle matches at the start. The terminating NUL is
the end of the list; buffers are treated as NUL-free text. -/
def strstrBytes : List Nat → List Nat → Option (List Nat)
  | [], needle => if needle = [] then some [] else none
  | h :: tl, needle =>
    if bytesStartWith (h :: tl) needle then some (h :: tl) else strstrBytes tl needle

/-- tolower from ctype, on ASCII bytes. -/
def toLowerByte (c : Nat) : Nat := if 65 ≤ c ∧ c ≤ 90 then c + 32 else c

/-- Inner while loop of ci_strstr: succeeds exactly when the whole needle is
matched case-insensitively before the haystack runs out. -/
def ciStartsWith : List Nat → List Nat → Bool
  | _, [] => true
  | [], _ :: _ => false
  | h :: hs, n :: ns => toLowerByte h == toLowerByte n && ciStartsWith hs ns

/-- Outer loop of ci_strstr: tries every position that still has at least one
character. -/
def ciSearch : List Nat → List Nat → Option (List Nat)
  | [], _ => none
  | h :: tl, needle =>
    if ciStartsWith (h :: tl) needle then some (h :: tl) else ciSearch tl needle

/-- ci_strstr from the receiver: case-insensitive strstr returning the suffix
at the first match; an empty needle returns the haystack unchanged. -/
def ci_strstr (hay needle : List Nat) : Option (List Nat) :=
  if needle = [] then some hay else ciSearch hay needle

/-- Skip loop for ' ' and ':' between a header name and its value. -/
def skipSpaceColon : List Nat → List Nat
  | c :: rest => if c = 32 ∨ c = 58 then skipSpaceColon rest else c :: rest
  | [] => []

/-- Byte encoding of an ASCII string literal. -/
def strBytes (s : String) : List Nat := s.toList.map Char.toNat

/-- find_header from the receiver: case-insensitive search for the header
name anywhere in the buffer, then spaces and colons are skipped; the value
length runs to the next "\r\n" and stays 0 (the caller's initialisation)
when no "\r\n" follows. Returns the value suffix and that length. -/
def find_header (request name : List Nat) : Option (List Nat × Nat) :=
  match ci_strstr request name with
  | none => none
  | some pos =>
    let v := skipSpaceColon (pos.drop name.length)
    let len :=
      match strstrBytes v (strBytes ("\r\n")) with
      | some rest => v.length - rest.length
      | none => 0
    some (v, len)

/-- wants_keep_alive from the receiver: a Connection header whose value is at
least 5 bytes long with "close" anywhere from the value onwards declines
keep-alive; otherwise "keep-alive" from the value onwards accepts; otherwise
an "HTTP/1.1" anywhere in the buffer defaults to keep-alive. -/
def wants_keep_alive (request : List Nat) : Bool :=
  match find_header request (strBytes ("Connection")) with
  | some cl =>
    if 5 ≤ cl.2 ∧ (ci_strstr cl.1 (strBytes ("close"))).isSome then false
    else if (ci_strstr cl.1 (strBytes ("keep-alive"))).isSome then true
    else (strstrBytes request (strBytes ("HTTP/1.1"))).isSome
  | none => (strstrBytes request (strBytes ("HTTP/1.1"))).isSome

/-- Body scan of the brightness POST handler: strstr for the quoted key
"value", then strchr for ':' from that position on; only when both are found
is the value parsed (strtof, not modelled) and the pending flag raised. -/
def brightnessValueFound (body : List Nat) : Bool :=
  match strstrBytes body (strBytes ("\"value\"")) with
  | some pos => pos.contains 58
  | none => false

/-- Brightness route block of process_request: a POST with a body stages a
pending brightness value (flag raised only when the body scan finds the
quoted key and a colon); any other case answers with the current value. -/
def brightnessRoute (s : ServerState) (r : RequestInfo) : PrOut :=
  if r.method = "POST" ∧ r.body.isSome ∧ body_len r > 0 then
    finishJson
      { s with pendingBrightness :=
          s.pendingBrightness || brightnessValueFound (r.body.getD []) }
      (.json okJson) r.keepAlive
  else
    finishJson s .brightnessValue r.keepAlive

/-- Frame route block of process_request: busy while a frame is pending;
with body bytes of at least FRAME_SIZE the first FRAME_SIZE bytes become the
ready frame (full frame, sequence bumped, pending set) — the second guard
conjunct models the constant-true expected <= sizeof(g_frame_buffer) check;
a shorter non-empty body is acknowledged ok without any effect; an empty one
is an error. -/
def frameRoute (s : ServerState) (r : RequestInfo) : PrOut :=
  if s.store.pendingFrame then
    finishJson s (.json busyJson) r.keepAlive
  else if r.body.isSome ∧ body_len r > 0 then
    if FRAME_SIZE ≤ body_len r ∧ FRAME_SIZE ≤ FRAME_SIZE then
      finishJson
        { s with store := ⟨bytesToPixels ((r.body.getD []).take FRAME_SIZE),
            s.store.deltaIndices, 0, (s.store.frameSequence + 1) % SEQ_MOD, true⟩ }
        (.json okJson) r.keepAlive
    else finishJson s (.json okJson) r.keepAlive
  else finishJson s (.json noDataJson) r.keepAlive

/-- Delta route block of process_request: busy while a frame is pending; a
body of at least 2 bytes is read as a little-endian count, checked against
the body length and the 1024 cap, and its entries are applied to the ready
frame with out-of-range indices skipped; the unreachable match fallback
covers body bytes shorter than the already-checked body_len. -/
def deltaRoute (s : ServerState) (r : RequestInfo) : PrOut :=
  if s.store.pendingFrame then
    finishJson s (.json busyJson) r.keepAlive
  else if r.body.isSome ∧ 2 ≤ body_len r then
    match r.body.getD [] with
    | b0 :: b1 :: rest =>
      if 2 + (b0 ||| (b1 <<< 8)) * 5 ≤ body_len r ∧ (b0 ||| (b1 <<< 8)) ≤ 1024 then
        finishJson
          { s with store :=
              ⟨(applyDelta s.store.readyFrame [] (parseEntries (b0 ||| (b1 <<< 8)) rest)).1,
               (applyDelta s.store.readyFrame [] (parseEntries (b0 ||| (b1 <<< 8)) rest)).2,
               (applyDelta s.store.readyFrame [] (parseEntries (b0 ||| (b1 <<< 8)) rest)).2.length,
               (s.store.frameSequence + 1) % SEQ_MOD, true⟩ }
          (.json okJson) r.keepAlive
      else finishJson s (.json invalidDeltaJson) r.keepAlive
    | _ => finishJson s (.json noDataJson) r.keepAlive
  else finishJson s (.json noDataJson) r.keepAlive

/-- Reboot-to-bootloader route block of process_request: the USB check fires
first, then the IP gate, and only then are both reboot flags set. -/
def rebootBootloaderRoute (env : ServerEnv) (s : ServerState) (r : RequestInfo) : PrOut :=
  if !env.usbMounted then
    finishJson s (.json usbErrJson) r.keepAlive
  else if !is_bootloader_allowed env.allowedIps r.clientIp then
    finishJson s (.json ipErrJson) r.keepAlive
  else
    finishJson { s with rebootRequested := true, rebootToBootloader := true }
      (.json rebootBootloaderJson) r.keepAlive

/-- process_request from the receiver, at the level of one parsed, complete
request: the route dispatch with the resulting response, state change and
connection action, the route bodies being the blocks above. keepAlive is
wants_keep_alive applied to the raw buffer; the 400 path for a request line
that sscanf cannot split into two tokens is below this level, which starts
from the parsed tokens. An unmatched route forces keep_alive off and closes
after the 404. -/
def process_request (env : ServerEnv) (s : ServerState) (r : RequestInfo) : PrOut :=
  if r.method = "OPTIONS" then
    ⟨s, .optionsCors, if r.keepAlive then .reset else .close⟩
  else if r.uri = "/api/status" then
    finishJson s (.json statusJson) r.keepAlive
  else if r.uri = "/api/brightness" then
    brightnessRoute s r
  else if r.uri = "/api/frame" ∧ r.method = "POST" then
    frameRoute s r
  else if r.uri = "/api/delta" ∧ r.method = "POST" then
    deltaRoute s r
  else if r.uri = "/api/reboot" ∧ r.method = "POST" then
    finishJson { s with rebootRequested := true, rebootToBootloader := false }
      (.json rebootingJson) r.keepAlive
  else if r.uri = "/api/reboot-bootloader" ∧ r.method = "POST" then
    rebootBootloaderRoute env s r
  else
    ⟨s, .notFound, .close⟩

/-- udp_recv_callback from the receiver: only a datagram of exactly
FRAME_SIZE bytes arriving while no frame is pending is copied into the ready
frame (full frame: delta count 0, sequence bumped, pending set); every other
datagram is dropped with the store untouched. The callback sends nothing
back: its only effects are this store update and freeing the pbuf, so its
model returns just the new store. -/
def udp_recv_callback (st : FrameStore) (datagram : List Nat) : FrameStore :=
  if datagram.length = FRAME_SIZE ∧ st.pendingFrame = false then
    ⟨bytesToPixels datagram, st.deltaIndices, 0, (st.frameSequence + 1) % SEQ_MOD, true⟩
  else st

/-- clear_pending_frame: the render side consumes the pending item; only the
flag changes. -/
def clear_pending_frame (st : FrameStore) : FrameStore :=
  { st with pendingFrame := false }

/-- Buffer append step of tcp_recv_callback: copy_len is the segment length,
clamped so request_len + copy_len never exceeds MAX_REQUEST_SIZE; the result
is the new request_len, which is also the index at which the NUL terminator
is stored (request_buffer[request_len] = 0) right after the copy. -/
def recv_append (request_len tot_len : Nat) : Nat :=
  let copy_len :=
    if request_len + tot_len > MAX_REQUEST_SIZE then MAX_REQUEST_SIZE - request_len
    else tot_len
  request_len + copy_len

/-- tcp_poll_callback on a live connection: the idle counter is incremented
and the connection is closed (ERR_ABRT) exactly when the counter then
exceeds KEEPALIVE_TIMEOUT_POLLS. Returns the new idle_polls and whether it
closed. -/
def tcp_poll_callback (idle_polls : Nat) : Nat × Bool :=
  (idle_polls + 1, idle_polls + 1 > KEEPALIVE_TIMEOUT_POLLS)

/-- Repeated idle polls from a given idle counter: stops when a poll closes
the connection; returns the final counter and whether it closed within the
given number of polls. -/
def pollRepeat : Nat → Nat → Nat × Bool
  | 0, i => (i, false)
  | k + 1, i =>
    if (tcp_poll_callback i).2 then ((tcp_poll_callback i).1, true)
    else pollRepeat k (tcp_poll_callback i).1

/-- ClientState fields relevant to the keep-alive cycle. -/
structure ClientState where
  request_len : Nat
  content_length : Nat
  headers_complete : Bool
  keep_alive : Bool
  idle_polls : Nat
deriving DecidableEq

/-- reset_client_state: parse state cleared for the next request on the same
socket; the keep_alive flag survives. -/
def reset_client_state (c : ClientState) : ClientState :=
  { c with request_len := 0, content_length := 0, headers_complete := false,
           idle_polls := 0 }

/-- Number of pixel positions where two frames differ: the changed-pixel set
the producer scans. -/
def diffCount (f1 f2 : Frame) : Nat :=
  ((f1.zip f2).filter fun ab => decide (ab.1 ≠ ab.2)).length

/-- Change records of the scan without the early-exit bookkeeping: for each
differing (previous, new) pair its five wire bytes, indices counting up
from px. -/
def recordsOf : List (Pixel × Pixel) → Nat → List Nat
  | [], _ => []
  | ab :: rest, px =>
    (if ab.1 ≠ ab.2 then deltaRecord px ab.2 else []) ++ recordsOf rest (px + 1)

/-- Parsed form of those records: one (index, new pixel) pair per differing
pixel pair. -/
def entriesOf : List (Pixel × Pixel) → Nat → List (Nat × Pixel)
  | [], _ => []
  | ab :: rest, px =>
    (if ab.1 ≠ ab.2 then [(px, ab.2)] else []) ++ entriesOf rest (px + 1)

/-- All-black frame used by the concrete checks. -/
def blackFrame : Frame := List.replicate 1024 ⟨0, 0, 0⟩

/-- blackFrame with the first six pixels turned red. -/
def sixRedFrame : Frame :=
  List.replicate 6 ⟨255, 0, 0⟩ ++ List.replicate 1018 ⟨0, 0, 0⟩

/-- blackFrame with only pixel 0 turned red. -/
def oneRedFrame : Frame := ⟨255, 0, 0⟩ :: List.replicate 1023 ⟨0, 0, 0⟩

/-- blackFrame with the first six pixels turned red and pixels 6 and 7 set
to the four patch bytes 36, 221, 37, 168: eight changed pixels chosen so
that the frame's CRC32 collides with blackFrame's. -/
def collisionFrame : Frame :=
  ⟨255, 0, 0⟩ :: ⟨255, 0, 0⟩ :: ⟨255, 0, 0⟩ :: ⟨255, 0, 0⟩ :: ⟨255, 0, 0⟩ ::
    ⟨255, 0, 0⟩ :: ⟨36, 221, 37⟩ :: ⟨168, 0, 0⟩ :: List.replicate 1016 ⟨0, 0, 0⟩

/-- Server environment used by the concrete checks: no resolved allow-list
hosts, USB mounted. -/
def env0 : ServerEnv := ⟨[], true⟩

/-- Non-pending frame store used by the concrete checks. -/
def store0 : FrameStore := ⟨blackFrame, [], 0, 0, false⟩

/-- Server state around store0 with all flags clear. -/
def state0 : ServerState := ⟨store0, false, false, false⟩

/-- Server state whose store holds an unconsumed pending frame. -/
def statePending : ServerState := ⟨⟨blackFrame, [], 0, 7, true⟩, false, false, false⟩

/-- Raw bytes of a keep-alive GET to an unrecognised route. -/
def kaNopeRaw : List Nat :=
  strBytes ("GET /api/nope HTTP/1.1\r\nConnection: keep-alive\r\n\r\n")

/-- Raw bytes of a keep-alive GET to the status route. -/
def kaStatusRaw : List Nat :=
  strBytes ("GET /api/status HTTP/1.1\r\nConnection: keep-alive\r\n\r\n")

/-- Bit-level roundtrip of the little-endian 16-bit encoding for the values
that occur here (pixel indices and delta counts are below 1024): splitting a
value into its low and high byte and recombining them with or and shift
restores the value. -/
theorem lor_byte_roundtrip :
    ∀ x, x < 1024 → (x &&& 255) ||| (((x >>> 8) &&& 255) <<< 8) = x := by decide

/-- Brightness route never touches the frame store. -/
theorem brightnessRoute_store (s : ServerState) (r : RequestInfo) :
    (brightnessRoute s r).state.store = s.store := by
  unfold brightnessRoute finishJson
  split <;> rfl

/-- Reboot-to-bootloader route never touches the frame store. -/
theorem rebootBootloaderRoute_store (env : ServerEnv) (s : ServerState) (r : RequestInfo) :
    (rebootBootloaderRoute env s r).state.store = s.store := by
  unfold rebootBootloaderRoute finishJson
  repeat' split
  all_goals rfl

/-- Frame route: either the store is untouched or — only from the
non-pending state — one full frame is installed with the sequence bumped by
one mod 2^32. -/
theorem frameRoute_store_cases (s : ServerState) (r : RequestInfo) :
    (frameRoute s r).state.store = s.store ∨
      (s.store.pendingFrame = false ∧
       (frameRoute s r).state.store.pendingFrame = true ∧
       (frameRoute s r).state.store.frameSequence =
         (s.store.frameSequence + 1) % SEQ_MOD) := by
  unfold frameRoute finishJson
  repeat' split
  all_goals first
    | (left; rfl)
    | (right; refine ⟨?_, rfl, rfl⟩; simp_all)

/-- Delta route: either the store is untouched or — only from the
non-pending state — one delta is applied with the sequence bumped by one
mod 2^32. -/
theorem deltaRoute_store_cases (s : ServerState) (r : RequestInfo) :
    (deltaRoute s r).state.store = s.store ∨
      (s.store.pendingFrame = false ∧
       (deltaRoute s r).state.store.pendingFrame = true ∧
       (deltaRoute s r).state.store.frameSequence =
         (s.store.frameSequence + 1) % SEQ_MOD) := by
  unfold deltaRoute finishJson
  repeat' split
  all_goals first
    | (left; rfl)
    | (right; refine ⟨?_, rfl, rfl⟩; simp_all)

/-- Brightness route answers and then acts per the keep-alive flag. -/
theorem brightnessRoute_action (s : ServerState) (r : RequestInfo) :
    (brightnessRoute s r).action =
      (if r.keepAlive then ConnAction.reset else ConnAction.close) := by
  unfold brightnessRoute finishJson
  split <;> rfl

/-- Frame route answers and then acts per the keep-alive flag. -/
theorem frameRoute_action (s : ServerState) (r : RequestInfo) :
    (frameRoute s r).action =
      (if r.keepAlive then ConnAction.reset else ConnAction.close) := by
  unfold frameRoute finishJson
  repeat' split
  all_goals rfl

/-- Delta route answers and then acts per the keep-alive flag. -/
theorem deltaRoute_action (s : ServerState) (r : RequestInfo) :
    (deltaRoute s r).action =
      (if r.keepAlive then ConnAction.reset else ConnAction.close) := by
  unfold deltaRoute finishJson
  repeat' split
  all_goals rfl

/-- Reboot-to-bootloader route answers and then acts per the keep-alive
flag. -/
theorem rebootBootloaderRoute_action (env : ServerEnv) (s : ServerState) (r : RequestInfo) :
    (rebootBootloaderRoute env s r).action =
      (if r.keepAlive then ConnAction.reset else ConnAction.close) := by
  unfold rebootBootloaderRoute finishJson
  repeat' split
  all_goals rfl

/-- Claim C2: a POST /api/frame arriving while the pending-frame flag is set
is answered with the busy JSON and leaves the whole server state — in
particular the ready frame, delta count, sequence number and pending flag —
unchanged. -/
theorem claim_C2_frame_busy (env : ServerEnv) (s : ServerState) (r : RequestInfo)
    (hm : r.method = "POST") (hu : r.uri = "/api/frame")
    (hp : s.store.pendingFrame = true) :
    (process_request env s r).response = .json busyJson ∧
    (process_request env s r).state = s := by
  simp [process_request, frameRoute, hm, hu, hp, finishJson]

/-- Concrete instance of claim C2's theorem: a busy POST /api/frame against a
pending store. -/
theorem claim_C2_witness :
    (process_request env0 statePending ⟨"POST", "/api/frame", some [1], 1, true, 0⟩).response
        = .json busyJson ∧
    (process_request env0 statePending ⟨"POST", "/api/frame", some [1], 1, true, 0⟩).state
        = statePending :=
  claim_C2_frame_busy env0 statePending ⟨"POST", "/api/frame", some [1], 1, true, 0⟩
    rfl rfl rfl

/-- Claim C9: a POST /api/frame whose body is non-empty but shorter than
FRAME_SIZE bytes, arriving while no frame is pending, is answered with the
ok JSON even though the whole server state — ready frame, delta count,
sequence number, pending flag — is left unchanged. -/
theorem claim_C9_short_frame_silently_ignored (env : ServerEnv) (s : ServerState)
    (r : RequestInfo) (bs : List Nat)
    (hm : r.method = "POST") (hu : r.uri = "/api/frame")
    (hp : s.store.pendingFrame = false) (hb : r.body = some bs)
    (hcl : 0 < r.contentLength) (h0 : 0 < bs.length) (hshort : bs.length < FRAME_SIZE) :
    (process_request env s r).response = .json okJson ∧
    (process_request env s r).state = s := by
  have hno : ¬ FRAME_SIZE ≤ bs.length := by omega
  simp [process_request, frameRoute, body_len, hm, hu, hp, hb, hcl, h0, hno, finishJson]

/-- Concrete instance of claim C9's theorem: a three-byte frame body is
acknowledged with ok and ignored. -/
theorem claim_C9_witness :
    (process_request env0 state0 ⟨"POST", "/api/frame", some [9, 9, 9], 3, true, 0⟩).response
        = .json okJson ∧
    (process_request env0 state0 ⟨"POST", "/api/frame", some [9, 9, 9], 3, true, 0⟩).state
        = state0 :=
  claim_C9_short_frame_silently_ignored env0 state0
    ⟨"POST", "/api/frame", some [9, 9, 9], 3, true, 0⟩ [9, 9, 9]
    rfl rfl rfl rfl (by decide) (by decide) (by decide)

/-- Claim C7: a UDP datagram updates the frame store only when its total
length is exactly FRAME_SIZE and no frame is pending — the update installs
the datagram as a full ready frame, zeroes the delta count, bumps the
sequence (mod 2^32) and sets the pending flag; in every other case the
datagram is dropped with the store entirely unchanged. The callback never
answers a UDP sender: its model has no response output at all. -/
theorem claim_C7_udp_exact_size_only (st : FrameStore) (d : List Nat) :
    ((d.length ≠ FRAME_SIZE ∨ st.pendingFrame = true) → udp_recv_callback st d = st) ∧
    (d.length = FRAME_SIZE → st.pendingFrame = false →
      (udp_recv_callback st d).readyFrame = bytesToPixels d ∧
      (udp_recv_callback st d).deltaCount = 0 ∧
      (udp_recv_callback st d).frameSequence = (st.frameSequence + 1) % SEQ_MOD ∧
      (udp_recv_callback st d).pendingFrame = true) := by
  constructor
  · intro h
    unfold udp_recv_callback
    split
    · next hc =>
      rcases h with h | h
      · exact absurd hc.1 h
      · rw [hc.2] at h; cases h
    · rfl
  · intro h1 h2
    simp [udp_recv_callback, h1, h2]

/-- Concrete instance of claim C7's theorem: a three-byte datagram is dropped
and a 3072-byte one is accepted. -/
theorem claim_C7_witness :
    udp_recv_callback store0 [1, 2, 3] = store0 ∧
    (udp_recv_callback ⟨[], [], 0, 5, false⟩ (List.replicate 3072 0)).pendingFrame = true :=
  ⟨(claim_C7_udp_exact_size_only store0 [1, 2, 3]).1 (Or.inl (by decide)),
   ((claim_C7_udp_exact_size_only ⟨[], [], 0, 5, false⟩ (List.replicate 3072 0)).2
      (by rw [List.length_replicate]; rfl) rfl).2.2.2⟩

/-- Claim C6: on POST /api/reboot-bootloader a caller whose IP the gate
is_bootloader_allowed rejects gets an error JSON (the USB or the IP error,
depending on which check fires first) and the state — in particular both
reboot flags — is unchanged; an allowed caller with USB mounted gets the
success JSON and both reboot flags set. -/
theorem claim_C6_bootloader_gate (env : ServerEnv) (s : ServerState) (r : RequestInfo)
    (hm : r.method = "POST") (hu : r.uri = "/api/reboot-bootloader") :
    (is_bootloader_allowed env.allowedIps r.clientIp = false →
      ((process_request env s r).response = .json usbErrJson ∨
        (process_request env s r).response = .json ipErrJson) ∧
      (process_request env s r).state = s) ∧
    (is_bootloader_allowed env.allowedIps r.clientIp = true → env.usbMounted = true →
      (process_request env s r).response = .json rebootBootloaderJson ∧
      (process_request env s r).state.rebootRequested = true ∧
      (process_request env s r).state.rebootToBootloader = true ∧
      (process_request env s r).state.store = s.store) := by
  constructor
  · intro hdeny
    cases husb : env.usbMounted <;>
      simp [process_request, rebootBootloaderRoute, hm, hu, husb, hdeny, finishJson]
  · intro hallow husb
    simp [process_request, rebootBootloaderRoute, hm, hu, husb, hallow, finishJson]

/-- Concrete instance of claim C6's theorem: the gateway address 10.0.0.1 is
denied with an error and no flag change; localhost 127.0.0.1 with USB
mounted succeeds and sets both flags. -/
theorem claim_C6_witness :
    ((process_request env0 state0
        ⟨"POST", "/api/reboot-bootloader", none, 0, true, 0x0100000A⟩).state = state0) ∧
    (process_request env0 state0
        ⟨"POST", "/api/reboot-bootloader", none, 0, true, 0x0100007F⟩).state.rebootToBootloader
      = true :=
  ⟨((claim_C6_bootloader_gate env0 state0
      ⟨"POST", "/api/reboot-bootloader", none, 0, true, 0x0100000A⟩ rfl rfl).1
        (by decide)).2,
   ((claim_C6_bootloader_gate env0 state0
      ⟨"POST", "/api/reboot-bootloader", none, 0, true, 0x0100007F⟩ rfl rfl).2
        (by decide) rfl).2.2.1⟩

/-- Characterisation of the delta apply loop: exactly the entries with
in-range indices are applied, in order, and exactly their indices are
appended to the record list; out-of-range entries are skipped. -/
theorem applyDelta_eq (entries : List (Nat × Pixel)) :
    ∀ (frame : Frame) (idxs : List Nat),
    applyDelta frame idxs entries =
      ((entries.filter fun e => decide (e.1 < NUM_PIXELS)).foldl
          (fun f e => f.set e.1 e.2) frame,
       idxs ++ (entries.filter fun e => decide (e.1 < NUM_PIXELS)).map Prod.fst) := by
  induction entries with
  | nil => intro frame idxs; simp [applyDelta]
  | cons e rest ih =>
    intro frame idxs
    by_cases h : e.1 < NUM_PIXELS
    · simp [applyDelta, h, ih]
    · simp [applyDelta, h, ih]

/-- Claim C5: in a processed delta update, every entry whose index is at
least NUM_PIXELS is skipped without being applied while all remaining
entries of the same update are still applied — the new ready frame is the
in-range entries folded over the old one and exactly their indices are
recorded — the request is answered ok, and the connection is not closed
because of the out-of-range entries: the action is the same
keep-alive-determined one as for every ok response. -/
theorem claim_C5_oob_entries_skipped (env : ServerEnv) (s : ServerState) (r : RequestInfo)
    (b0 b1 : Nat) (rest : List Nat)
    (hm : r.method = "POST") (hu : r.uri = "/api/delta")
    (hp : s.store.pendingFrame = false)
    (hb : r.body = some (b0 :: b1 :: rest)) (hcl : 0 < r.contentLength)
    (hexp : (b0 ||| (b1 <<< 8)) * 5 ≤ rest.length)
    (hcnt : b0 ||| (b1 <<< 8) ≤ 1024) :
    (process_request env s r).state.store.readyFrame =
      ((parseEntries (b0 ||| (b1 <<< 8)) rest).filter fun e =>
          decide (e.1 < NUM_PIXELS)).foldl
        (fun f e => f.set e.1 e.2) s.store.readyFrame ∧
    (process_request env s r).state.store.deltaIndices =
      ((parseEntries (b0 ||| (b1 <<< 8)) rest).filter fun e =>
          decide (e.1 < NUM_PIXELS)).map Prod.fst ∧
    (process_request env s r).state.store.deltaCount =
      (((parseEntries (b0 ||| (b1 <<< 8)) rest).filter fun e =>
          decide (e.1 < NUM_PIXELS)).map Prod.fst).length ∧
    (process_request env s r).response = .json okJson ∧
    (process_request env s r).action =
      (if r.keepAlive then ConnAction.reset else ConnAction.close) := by
  have hbl : body_len r = rest.length + 2 := by
    rw [body_len, hb]
    simp [hcl]
  have h1 : 2 + (b0 ||| (b1 <<< 8)) * 5 ≤ rest.length + 2 := by omega
  simp [process_request, deltaRoute, hm, hu, hp, hb, hbl, h1, hcnt, applyDelta_eq,
    finishJson]

/-- Concrete instance of claim C5's theorem: a delta with one out-of-range
entry (index 2000) and one in-range entry (index 3). -/
theorem claim_C5_witness :
    (process_request env0 state0
        ⟨"POST", "/api/delta", some [2, 0, 208, 7, 9, 9, 9, 3, 0, 1, 2, 3], 12, true, 0⟩
      ).state.store.readyFrame =
      ((parseEntries (2 ||| (0 <<< 8)) [208, 7, 9, 9, 9, 3, 0, 1, 2, 3]).filter fun e =>
          decide (e.1 < NUM_PIXELS)).foldl
        (fun f e => f.set e.1 e.2) state0.store.readyFrame ∧
    (process_request env0 state0
        ⟨"POST", "/api/delta", some [2, 0, 208, 7, 9, 9, 9, 3, 0, 1, 2, 3], 12, true, 0⟩
      ).state.store.deltaIndices =
      ((parseEntries (2 ||| (0 <<< 8)) [208, 7, 9, 9, 9, 3, 0, 1, 2, 3]).filter fun e =>
          decide (e.1 < NUM_PIXELS)).map Prod.fst ∧
    (process_request env0 state0
        ⟨"POST", "/api/delta", some [2, 0, 208, 7, 9, 9, 9, 3, 0, 1, 2, 3], 12, true, 0⟩
      ).state.store.deltaCount =
      (((parseEntries (2 ||| (0 <<< 8)) [208, 7, 9, 9, 9, 3, 0, 1, 2, 3]).filter fun e =>
          decide (e.1 < NUM_PIXELS)).map Prod.fst).length ∧
    (process_request env0 state0
        ⟨"POST", "/api/delta", some [2, 0, 208, 7, 9, 9, 9, 3, 0, 1, 2, 3], 12, true, 0⟩
      ).response = .json okJson ∧
    (process_request env0 state0
        ⟨"POST", "/api/delta", some [2, 0, 208, 7, 9, 9, 9, 3, 0, 1, 2, 3], 12, true, 0⟩
      ).action = (if true then ConnAction.reset else ConnAction.close) :=
  claim_C5_oob_entries_skipped env0 state0
    ⟨"POST", "/api/delta", some [2, 0, 208, 7, 9, 9, 9, 3, 0, 1, 2, 3], 12, true, 0⟩
    2 0 [208, 7, 9, 9, 9, 3, 0, 1, 2, 3]
    rfl rfl rfl rfl (by decide) (by decide) (by decide)

/-- Claim C8 (amended): on a keep-alive connection, every request answered
with anything other than the 404 fallback leaves the connection open with
the parse state reset — so two sequential recognised requests are both
answered with no close in between — reset_client_state clears request_len,
content_length, headers_complete and the idle counter while keeping the
keep_alive flag, and an idle connection survives KEEPALIVE_TIMEOUT_POLLS
polls but is closed by the first poll beyond that. An unmatched (404)
request, by contrast, closes the connection even under keep-alive. -/
theorem claim_C8_keepalive_cycle :
    (∀ (env : ServerEnv) (s : ServerState) (r : RequestInfo),
      r.keepAlive = true →
      ((process_request env s r).action = .reset ∨
        ((process_request env s r).response = .notFound ∧
         (process_request env s r).action = .close))) ∧
    (∀ c : ClientState, reset_client_state c = ⟨0, 0, false, c.keep_alive, 0⟩) ∧
    (pollRepeat KEEPALIVE_TIMEOUT_POLLS 0).2 = false ∧
    (pollRepeat (KEEPALIVE_TIMEOUT_POLLS + 1) 0).2 = true := by
  refine ⟨?_, ?_, ?_, ?_⟩
  · intro env s r hka
    unfold process_request
    repeat' split
    all_goals first
      | (right; exact ⟨rfl, rfl⟩)
      | (left; simp [finishJson, hka])
      | (left; simp [brightnessRoute_action, hka])
      | (left; simp [frameRoute_action, hka])
      | (left; simp [deltaRoute_action, hka])
      | (left; simp [rebootBootloaderRoute_action, hka])
  · intro c; rfl
  · decide
  · decide

/-- Concrete instance of claim C8's theorem: a keep-alive status request is
answered and the connection kept open; the 11th idle poll closes. -/
theorem claim_C8_witness :
    ((process_request env0 state0
        ⟨"GET", "/api/status", none, 0, wants_keep_alive kaStatusRaw, 0⟩).action
        = ConnAction.reset ∨
      ((process_request env0 state0
          ⟨"GET", "/api/status", none, 0, wants_keep_alive kaStatusRaw, 0⟩).response
          = HttpResponse.notFound ∧
       (process_request env0 state0
          ⟨"GET", "/api/status", none, 0, wants_keep_alive kaStatusRaw, 0⟩).action
          = ConnAction.close)) ∧
    (pollRepeat (KEEPALIVE_TIMEOUT_POLLS + 1) 0).2 = true :=
  ⟨claim_C8_keepalive_cycle.1 env0 state0
      ⟨"GET", "/api/status", none, 0, wants_keep_alive kaStatusRaw, 0⟩ (by decide),
   claim_C8_keepalive_cycle.2.2.2⟩

/-- Claim C8 counterexample: a request to an unmatched route that carries
Connection: keep-alive is answered (with 404) and the server then closes
the connection, so two sequential keep-alive requests on one socket are not
in general both served without an intervening close. -/
theorem claim_C8_counterexample :
    wants_keep_alive kaNopeRaw = true ∧
    (process_request env0 state0
        ⟨"GET", "/api/nope", none, 0, wants_keep_alive kaNopeRaw, 0⟩).response
      = HttpResponse.notFound ∧
    (process_request env0 state0
        ⟨"GET", "/api/nope", none, 0, wants_keep_alive kaNopeRaw, 0⟩).action
      = ConnAction.close :=
  ⟨by decide, by decide, by decide⟩

/-- Claim C4 (amended): the receiver's frame slot holds at most one
undelivered update — processing an HTTP request or a UDP datagram either
leaves the frame store exactly as it was (in particular whenever a frame is
already pending) or, only from the non-pending state, installs one update,
setting the pending flag and advancing the sequence number by exactly one
modulo 2^32 (the counter is a uint32 and wraps); consuming the pending
frame (clear_pending_frame) clears the flag and never changes the sequence
number. -/
theorem claim_C4_single_slot_and_sequence :
    (∀ (env : ServerEnv) (s : ServerState) (r : RequestInfo),
      (process_request env s r).state.store = s.store ∨
        (s.store.pendingFrame = false ∧
         (process_request env s r).state.store.pendingFrame = true ∧
         (process_request env s r).state.store.frameSequence =
           (s.store.frameSequence + 1) % SEQ_MOD)) ∧
    (∀ (st : FrameStore) (d : List Nat),
      udp_recv_callback st d = st ∨
        (st.pendingFrame = false ∧ (udp_recv_callback st d).pendingFrame = true ∧
         (udp_recv_callback st d).frameSequence = (st.frameSequence + 1) % SEQ_MOD)) ∧
    (∀ st : FrameStore, (clear_pending_frame st).frameSequence = st.frameSequence ∧
      (clear_pending_frame st).pendingFrame = false) := by
  refine ⟨?_, ?_, ?_⟩
  · intro env s r
    unfold process_request
    repeat' split
    all_goals first
      | (left; rfl)
      | (exact Or.inl (brightnessRoute_store _ _))
      | (exact frameRoute_store_cases _ _)
      | (exact deltaRoute_store_cases _ _)
      | (exact Or.inl (rebootBootloaderRoute_store _ _ _))
  · intro st d
    unfold udp_recv_callback
    split
    · next hc => exact Or.inr ⟨hc.2, rfl, rfl⟩
    · exact Or.inl rfl
  · intro st
    exact ⟨rfl, rfl⟩

/-- Claim C4 counterexample: from sequence value 2^32 - 1 an accepted UDP
full frame wraps the uint32 sequence counter to 0 instead of increasing it
by one. -/
theorem claim_C4_counterexample :
    (udp_recv_callback ⟨[], [], 0, 4294967295, false⟩ (List.replicate 3072 0)).pendingFrame
      = true ∧
    (udp_recv_callback ⟨[], [], 0, 4294967295, false⟩ (List.replicate 3072 0)).frameSequence
      = 0 := by
  have hlen : (List.replicate 3072 (0:Nat)).length = FRAME_SIZE := by
    rw [List.length_replicate]; rfl
  unfold udp_recv_callback
  rw [if_pos ⟨hlen, rfl⟩]
  exact ⟨rfl, rfl⟩

/-- Scan characterisation without the early exit: when the running count
stays within DELTA_THRESHOLD, the loop completes, counting every differing
pair and emitting exactly their records. -/
theorem deltaScan_complete (ps : List (Pixel × Pixel)) :
    ∀ (px count : Nat),
    count + (ps.filter fun ab => decide (ab.1 ≠ ab.2)).length ≤ DELTA_THRESHOLD →
    deltaScan ps px count =
      (count + (ps.filter fun ab => decide (ab.1 ≠ ab.2)).length, recordsOf ps px) := by
  induction ps with
  | nil => intro px count h; simp [deltaScan, recordsOf]
  | cons ab rest ih =>
    intro px count h
    by_cases hd : ab.1 = ab.2
    · have e1 : deltaScan (ab :: rest) px count = deltaScan rest (px + 1) count := by
        simp [deltaScan, hd]
      have e2 : ((ab :: rest).filter fun ab => decide (ab.1 ≠ ab.2)) =
          rest.filter fun ab => decide (ab.1 ≠ ab.2) := by
        simp [List.filter_cons, hd]
      have e3 : recordsOf (ab :: rest) px = recordsOf rest (px + 1) := by
        simp [recordsOf, hd]
      rw [e1, e2, e3]
      exact ih (px + 1) count (by rw [e2] at h; exact h)
    · have e2 : ((ab :: rest).filter fun ab => decide (ab.1 ≠ ab.2)) =
          ab :: (rest.filter fun ab => decide (ab.1 ≠ ab.2)) := by
        simp [List.filter_cons, hd]
      rw [e2] at h ⊢
      have hnb : ¬ (count + 1 > DELTA_THRESHOLD) := by
        simp only [List.length_cons] at h
        omega
      have ih1 := ih (px + 1) (count + 1) (by simp only [List.length_cons] at h; omega)
      have e1 : deltaScan (ab :: rest) px count =
          ((deltaScan rest (px + 1) (count + 1)).1,
           deltaRecord px ab.2 ++ (deltaScan rest (px + 1) (count + 1)).2) := by
        simp [deltaScan, hd, hnb]
      rw [e1, ih1]
      have e3 : recordsOf (ab :: rest) px =
          deltaRecord px ab.2 ++ recordsOf rest (px + 1) := by
        simp [recordsOf, hd]
      rw [e3]
      simp only [List.length_cons, Prod.mk.injEq]
      refine ⟨by omega, by simp⟩

/-- Scan characterisation with the early exit: as soon as the differing
pairs push the running count beyond DELTA_THRESHOLD, the loop breaks
reporting DELTA_THRESHOLD + 1 records. -/
theorem deltaScan_overflow (ps : List (Pixel × Pixel)) :
    ∀ (px count : Nat), count ≤ DELTA_THRESHOLD →
    DELTA_THRESHOLD < count + (ps.filter fun ab => decide (ab.1 ≠ ab.2)).length →
    (deltaScan ps px count).1 = DELTA_THRESHOLD + 1 := by
  induction ps with
  | nil =>
    intro px count h1 h2
    simp at h2
    omega
  | cons ab rest ih =>
    intro px count h1 h2
    by_cases hd : ab.1 = ab.2
    · have e1 : deltaScan (ab :: rest) px count = deltaScan rest (px + 1) count := by
        simp [deltaScan, hd]
      have e2 : ((ab :: rest).filter fun ab => decide (ab.1 ≠ ab.2)) =
          rest.filter fun ab => decide (ab.1 ≠ ab.2) := by
        simp [List.filter_cons, hd]
      rw [e2] at h2
      rw [e1]
      exact ih (px + 1) count h1 h2
    · have e2 : ((ab :: rest).filter fun ab => decide (ab.1 ≠ ab.2)) =
          ab :: (rest.filter fun ab => decide (ab.1 ≠ ab.2)) := by
        simp [List.filter_cons, hd]
      rw [e2, List.length_cons] at h2
      by_cases hb : count + 1 > DELTA_THRESHOLD
      · have e1 : deltaScan (ab :: rest) px count = (count + 1, deltaRecord px ab.2) := by
          simp [deltaScan, hd, hb]
        rw [e1]
        simp
        omega
      · have e1 : deltaScan (ab :: rest) px count =
            ((deltaScan rest (px + 1) (count + 1)).1,
             deltaRecord px ab.2 ++ (deltaScan rest (px + 1) (count + 1)).2) := by
          simp [deltaScan, hd, hb]
        rw [e1]
        exact ih (px + 1) (count + 1) (by omega) (by omega)

/-- Record stream length: five bytes per differing pair. -/
theorem recordsOf_length (ps : List (Pixel × Pixel)) :
    ∀ px, (recordsOf ps px).length =
      5 * (ps.filter fun ab => decide (ab.1 ≠ ab.2)).length := by
  induction ps with
  | nil => intro px; simp [recordsOf]
  | cons ab rest ih =>
    intro px
    by_cases hd : ab.1 = ab.2
    · simp [recordsOf, deltaRecord, hd, ih (px + 1), List.filter_cons]
    · simp [recordsOf, deltaRecord, hd, ih (px + 1), List.filter_cons]
      omega

/-- Entry list length: one entry per differing pair. -/
theorem entriesOf_length (ps : List (Pixel × Pixel)) :
    ∀ px, (entriesOf ps px).length =
      (ps.filter fun ab => decide (ab.1 ≠ ab.2)).length := by
  induction ps with
  | nil => intro px; simp [entriesOf]
  | cons ab rest ih =>
    intro px
    by_cases hd : ab.1 = ab.2 <;>
      simp [entriesOf, hd, ih (px + 1), List.filter_cons]

/-- Parsing back the emitted records: for starting indices that keep every
pixel index below 1024 the receiver's entry parse recovers exactly the
(index, new pixel) list the producer encoded. -/
theorem parseEntries_recordsOf (ps : List (Pixel × Pixel)) :
    ∀ px, px + ps.length ≤ 1024 →
    parseEntries (entriesOf ps px).length (recordsOf ps px) = entriesOf ps px := by
  induction ps with
  | nil => intro px h; simp [entriesOf, recordsOf, parseEntries]
  | cons ab rest ih =>
    intro px h
    rw [List.length_cons] at h
    by_cases hd : ab.1 = ab.2
    · have e1 : entriesOf (ab :: rest) px = entriesOf rest (px + 1) := by
        simp [entriesOf, hd]
      have e2 : recordsOf (ab :: rest) px = recordsOf rest (px + 1) := by
        simp [recordsOf, hd]
      rw [e1, e2]
      exact ih (px + 1) (by omega)
    · have e1 : entriesOf (ab :: rest) px = (px, ab.2) :: entriesOf rest (px + 1) := by
        simp [entriesOf, hd]
      have e2 : recordsOf (ab :: rest) px =
          (px &&& 255) :: ((px >>> 8) &&& 255) :: ab.2.r :: ab.2.g :: ab.2.b ::
            recordsOf rest (px + 1) := by
        simp [recordsOf, deltaRecord, hd]
      rw [e1, e2]
      have hpx : (px &&& 255) ||| (((px >>> 8) &&& 255) <<< 8) = px :=
        lor_byte_roundtrip px (by omega)
      simp only [List.length_cons, parseEntries, hpx]
      rw [ih (px + 1) (by omega)]

/-- Every parsed entry names a differing position with the new frame's
pixel. -/
theorem entriesOf_mem (ps : List (Pixel × Pixel)) :
    ∀ px e, e ∈ entriesOf ps px →
      ∃ k, ∃ hk : k < ps.length, ps[k].1 ≠ ps[k].2 ∧ e = (px + k, ps[k].2) := by
  induction ps with
  | nil => intro px e he; simp [entriesOf] at he
  | cons ab rest ih =>
    intro px e he
    by_cases hd : ab.1 = ab.2
    · rw [show entriesOf (ab :: rest) px = entriesOf rest (px + 1) from by
        simp [entriesOf, hd]] at he
      obtain ⟨k, hk, hne, hee⟩ := ih (px + 1) e he
      refine ⟨k + 1, by simpa using Nat.succ_lt_succ hk, by simpa using hne, ?_⟩
      rw [hee]
      simp
      omega
    · rw [show entriesOf (ab :: rest) px = (px, ab.2) :: entriesOf rest (px + 1) from by
        simp [entriesOf, hd]] at he
      rcases List.mem_cons.mp he with he | he
      · exact ⟨0, by simp, by simpa using hd, by simpa using he⟩
      · obtain ⟨k, hk, hne, hee⟩ := ih (px + 1) e he
        refine ⟨k + 1, by simpa using Nat.succ_lt_succ hk, by simpa using hne, ?_⟩
        rw [hee]
        simp
        omega

/-- Every differing position contributes its entry. -/
theorem entriesOf_mem_of_ne (ps : List (Pixel × Pixel)) :
    ∀ px k, ∀ hk : k < ps.length, ps[k].1 ≠ ps[k].2 →
      (px + k, ps[k].2) ∈ entriesOf ps px := by
  induction ps with
  | nil => intro px k hk; simp at hk
  | cons ab rest ih =>
    intro px k hk hne
    cases k with
    | zero =>
      simp only [List.getElem_cons_zero] at hne ⊢
      rw [show entriesOf (ab :: rest) px = (px, ab.2) :: entriesOf rest (px + 1) from by
        simp [entriesOf, hne]]
      simp
    | succ k =>
      have hmem := ih (px + 1) k (by simpa using hk) (by simpa using hne)
      have harith : px + (k + 1) = (px + 1) + k := by omega
      rw [List.getElem_cons_succ, harith]
      unfold entriesOf
      exact List.mem_append_right _ hmem

/-- Applying a list of entries that all carry the target frame's pixels, to
an accumulator that already agrees with the target everywhere outside the
entry indices, restores the target frame exactly. -/
theorem applyDelta_restores (f2 : Frame) (hf2 : f2.length = NUM_PIXELS) :
    ∀ (entries : List (Nat × Pixel)) (acc : Frame) (idxs : List Nat),
    acc.length = f2.length →
    (∀ e ∈ entries, e.1 < f2.length ∧ f2[e.1]? = some e.2) →
    (∀ j : Nat, j ∉ entries.map Prod.fst → acc[j]? = f2[j]?) →
    (applyDelta acc idxs entries).1 = f2 := by
  intro entries
  induction entries with
  | nil =>
    intro acc idxs hlen hmem hout
    rw [show applyDelta acc idxs [] = (acc, idxs) from rfl]
    exact List.ext_getElem? fun n => hout n (by simp)
  | cons e rest ih =>
    intro acc idxs hlen hmem hout
    have he := hmem e (by simp)
    have hlt : e.1 < NUM_PIXELS := hf2 ▸ he.1
    rw [show applyDelta acc idxs (e :: rest) =
        applyDelta (acc.set e.1 e.2) (idxs ++ [e.1]) rest from by
      simp [applyDelta, hlt]]
    apply ih
    · rw [List.length_set]
      exact hlen
    · intro x hx
      exact hmem x (by simp [hx])
    · intro j hj
      by_cases hje : j = e.1
      · subst hje
        rw [List.getElem?_set_eq_of_lt e.2 (by rw [hlen]; exact he.1)]
        exact he.2.symm
      · rw [List.getElem?_set_ne (fun hc => hje hc.symm)]
        refine hout j ?_
        simp only [List.map_cons, List.mem_cons]
        rintro (hc | hc)
        · exact hje hc
        · exact hj (by simpa using hc)

/-- Claim C1: for 32x32 frames F1, F2 whose changed-pixel count lies in
(5, 600], the producer's delta encoding of the changed-pixel set — 2-byte
little-endian count, then 5-byte records of little-endian index plus R, G,
B — posted to /api/delta and processed by the receiver's delta-apply loop
against a non-pending store whose ready frame equals F1, leaves exactly F2
in the ready frame. -/
theorem claim_C1_delta_roundtrip (env : ServerEnv) (f1 f2 : Frame)
    (di : List Nat) (dc seq : Nat) (rr rb pb ka : Bool) (ip : Nat)
    (hl1 : f1.length = NUM_PIXELS) (hl2 : f2.length = NUM_PIXELS)
    (hd5 : 5 < diffCount f1 f2) (hd600 : diffCount f1 f2 ≤ DELTA_THRESHOLD) :
    (process_request env ⟨⟨f1, di, dc, seq, false⟩, rr, rb, pb⟩
        ⟨"POST", "/api/delta", some (encode_delta f1 f2),
         (encode_delta f1 f2).length, ka, ip⟩).state.store.readyFrame = f2 := by
  have hTH : DELTA_THRESHOLD = 600 := rfl
  have hNP : NUM_PIXELS = 1024 := rfl
  have hps_len : (f1.zip f2).length = 1024 := by
    rw [List.length_zip, hl1, hl2, hNP]
    simp
  have hdC : diffCount f1 f2 =
      ((f1.zip f2).filter fun ab => decide (ab.1 ≠ ab.2)).length := rfl
  have hscan : deltaScan (f1.zip f2) 0 0 =
      (diffCount f1 f2, recordsOf (f1.zip f2) 0) := by
    have h := deltaScan_complete (f1.zip f2) 0 0 (by rw [← hdC]; omega)
    rw [h, hdC]
    simp
  have henc : encode_delta f1 f2 =
      (diffCount f1 f2 &&& 255) :: ((diffCount f1 f2 >>> 8) &&& 255) ::
        recordsOf (f1.zip f2) 0 := by
    simp [encode_delta, hscan]
  have hreclen : (recordsOf (f1.zip f2) 0).length = 5 * diffCount f1 f2 := by
    rw [recordsOf_length, hdC]
  have hcnt : (diffCount f1 f2 &&& 255) ||| (((diffCount f1 f2 >>> 8) &&& 255) <<< 8) =
      diffCount f1 f2 :=
    lor_byte_roundtrip (diffCount f1 f2) (by omega)
  have henclen : (encode_delta f1 f2).length = 2 + 5 * diffCount f1 f2 := by
    rw [henc]
    simp [hreclen]
    omega
  have hparse : parseEntries (diffCount f1 f2) (recordsOf (f1.zip f2) 0) =
      entriesOf (f1.zip f2) 0 := by
    have hel : (entriesOf (f1.zip f2) 0).length = diffCount f1 f2 := by
      rw [entriesOf_length, hdC]
    rw [← hel]
    exact parseEntries_recordsOf (f1.zip f2) 0 (by rw [hps_len])
  have happly : (applyDelta f1 [] (entriesOf (f1.zip f2) 0)).1 = f2 := by
    apply applyDelta_restores f2 hl2 (entriesOf (f1.zip f2) 0) f1 []
      (by rw [hl1, hl2])
    · intro e he
      obtain ⟨k, hk, hne, hee⟩ := entriesOf_mem (f1.zip f2) 0 e he
      have hk1 : k < f1.length := by rw [hl1, hNP]; rw [hps_len] at hk; omega
      have hk2f : k < f2.length := by rw [hl2, hNP]; rw [hps_len] at hk; omega
      have hzip : (f1.zip f2)[k] = (f1[k], f2[k]) := List.getElem_zip
      have hk2 : k < f2.length := by
        rw [hl2, hNP]
        omega
      constructor
      · rw [hee]
        simpa using hk2
      · rw [hee]
        simp only [hzip]
        simp [List.getElem?_eq_getElem hk2]
    · intro j hj
      by_cases hjlt : j < 1024
      · have hj1 : j < f1.length := by rw [hl1, hNP]; omega
        have hj2 : j < f2.length := by rw [hl2, hNP]; omega
        by_cases hne : f1[j] = f2[j]
        · rw [List.getElem?_eq_getElem hj1, List.getElem?_eq_getElem hj2, hne]
        · exfalso
          apply hj
          have hjz : j < (f1.zip f2).length := by rw [hps_len]; omega
          have hzip : (f1.zip f2)[j] = (f1[j], f2[j]) := List.getElem_zip
          have hmem := entriesOf_mem_of_ne (f1.zip f2) 0 j hjz
            (by rw [hzip]; simpa using hne)
          have : ((0 + j, (f1.zip f2)[j].2) : Nat × Pixel).1 ∈
              (entriesOf (f1.zip f2) 0).map Prod.fst :=
            List.mem_map_of_mem Prod.fst hmem
          simpa using this
      · have hj1 : f1.length ≤ j := by rw [hl1, hNP]; omega
        have hj2 : f2.length ≤ j := by rw [hl2, hNP]; omega
        rw [List.getElem?_eq_none hj1, List.getElem?_eq_none hj2]
  have hguard1 : 2 + ((diffCount f1 f2 &&& 255) |||
      (((diffCount f1 f2 >>> 8) &&& 255) <<< 8)) * 5 ≤
      (recordsOf (f1.zip f2) 0).length + 2 := by
    rw [hcnt, hreclen]
    omega
  have hguard2 : ((diffCount f1 f2 &&& 255) |||
      (((diffCount f1 f2 >>> 8) &&& 255) <<< 8)) ≤ 1024 := by
    rw [hcnt]
    omega
  have hfinal : (applyDelta f1 []
      (parseEntries ((diffCount f1 f2 &&& 255) |||
        (((diffCount f1 f2 >>> 8) &&& 255) <<< 8)) (recordsOf (f1.zip f2) 0))).1 = f2 := by
    rw [hcnt, hparse]
    exact happly
  simp [process_request, deltaRoute, body_len, henc, hguard1, hguard2, hfinal, finishJson]

/-- Concrete instance of claim C1's theorem: six changed pixels encoded and
applied over the all-black frame reproduce the changed frame. -/
theorem claim_C1_witness :
    (process_request env0 ⟨⟨blackFrame, [], 0, 0, false⟩, false, false, false⟩
        ⟨"POST", "/api/delta", some (encode_delta blackFrame sixRedFrame),
         (encode_delta blackFrame sixRedFrame).length, true, 0⟩).state.store.readyFrame
      = sixRedFrame :=
  claim_C1_delta_roundtrip env0 blackFrame sixRedFrame [] 0 0 false false false true 0
    (by rw [show blackFrame = List.replicate 1024 ⟨0, 0, 0⟩ from rfl,
      List.length_replicate]; rfl)
    (by rw [show sixRedFrame =
        List.replicate 6 ⟨255, 0, 0⟩ ++ List.replicate 1018 ⟨0, 0, 0⟩ from rfl]
        simp [List.length_append]; rfl)
    (by decide) (by decide)

/-- Chunked evaluation step for iterated functions: consuming m iterations
then n more. -/
theorem iterate_chunk (f : Nat → Nat) (m n x y z : Nat)
    (h1 : f^[m] x = y) (h2 : f^[n] y = z) : f^[n + m] x = z := by
  rw [Function.iterate_add_apply, h1, h2]

/-- Folding the CRC byte step over zero bytes is iterating the zero-byte
step. -/
theorem foldl_crcStep_replicate (n : Nat) :
    ∀ c, List.foldl crcStep c (List.replicate n 0) = crcZero^[n] c := by
  induction n with
  | zero => intro c; simp
  | succ n ih =>
    intro c
    rw [List.replicate_succ, List.foldl_cons, ih, Function.iterate_succ_apply]
    rfl

/-- Flattened bytes of a cons cell. -/
theorem frameBytes_cons (p : Pixel) (l : Frame) :
    frameBytes (p :: l) = p.r :: p.g :: p.b :: frameBytes l := by
  simp [frameBytes]

/-- Flattened bytes of a run of black pixels. -/
theorem frameBytes_replicate_zero :
    ∀ n, frameBytes (List.replicate n ⟨0, 0, 0⟩) = List.replicate (3 * n) 0 := by
  intro n
  induction n with
  | zero => simp [frameBytes]
  | succ n ih =>
    rw [List.replicate_succ, frameBytes_cons, ih,
      (by omega : 3 * (n + 1) = 3 * n + 1 + 1 + 1)]
    simp [List.replicate_succ]

/-- CRC register after the 3072 zero bytes of the all-black frame,
evaluated in bounded chunks of 32 zero-byte steps. -/
theorem crc_reg_black : crcZero^[3072] 4294967295 = 2551789179 := by
  have t1 : crcZero^[32] 4294967295 = 3874859602 := by decide
  have t2 : crcZero^[64] 4294967295 = 2322767049 :=
    iterate_chunk crcZero 32 32 4294967295 3874859602 2322767049 t1 (by decide)
  have t3 : crcZero^[96] 4294967295 = 1158388305 :=
    iterate_chunk crcZero 64 32 4294967295 2322767049 1158388305 t2 (by decide)
  have t4 : crcZero^[128] 4294967295 = 1029113186 :=
    iterate_chunk crcZero 96 32 4294967295 1158388305 1029113186 t3 (by decide)
  have t5 : crcZero^[160] 4294967295 = 1442360476 :=
    iterate_chunk crcZero 128 32 4294967295 1029113186 1442360476 t4 (by decide)
  have t6 : crcZero^[192] 4294967295 = 1946220301 :=
    iterate_chunk crcZero 160 32 4294967295 1442360476 1946220301 t5 (by decide)
  have t7 : crcZero^[224] 4294967295 = 3269371036 :=
    iterate_chunk crcZero 192 32 4294967295 1946220301 3269371036 t6 (by decide)
  have t8 : crcZero^[256] 4294967295 = 4066998951 :=
    iterate_chunk crcZero 224 32 4294967295 3269371036 4066998951 t7 (by decide)
  have t9 : crcZero^[288] 4294967295 = 336434605 :=
    iterate_chunk crcZero 256 32 4294967295 4066998951 336434605 t8 (by decide)
  have t10 : crcZero^[320] 4294967295 = 1379444914 :=
    iterate_chunk crcZero 288 32 4294967295 336434605 1379444914 t9 (by decide)
  have t11 : crcZero^[352] 4294967295 = 72530326 :=
    iterate_chunk crcZero 320 32 4294967295 1379444914 72530326 t10 (by decide)
  have t12 : crcZero^[384] 4294967295 = 2001022648 :=
    iterate_chunk crcZero 352 32 4294967295 72530326 2001022648 t11 (by decide)
  have t13 : crcZero^[416] 4294967295 = 2030757741 :=
    iterate_chunk crcZero 384 32 4294967295 2001022648 2030757741 t12 (by decide)
  have t14 : crcZero^[448] 4294967295 = 3111512508 :=
    iterate_chunk crcZero 416 32 4294967295 2030757741 3111512508 t13 (by decide)
  have t15 : crcZero^[480] 4294967295 = 71646322 :=
    iterate_chunk crcZero 448 32 4294967295 3111512508 71646322 t14 (by decide)
  have t16 : crcZero^[512] 4294967295 = 1297451655 :=
    iterate_chunk crcZero 480 32 4294967295 71646322 1297451655 t15 (by decide)
  have t17 : crcZero^[544] 4294967295 = 1867802256 :=
    iterate_chunk crcZero 512 32 4294967295 1297451655 1867802256 t16 (by decide)
  have t18 : crcZero^[576] 4294967295 = 3155420940 :=
    iterate_chunk crcZero 544 32 4294967295 1867802256 3155420940 t17 (by decide)
  have t19 : crcZero^[608] 4294967295 = 3694703591 :=
    iterate_chunk crcZero 576 32 4294967295 3155420940 3694703591 t18 (by decide)
  have t20 : crcZero^[640] 4294967295 = 3028871461 :=
    iterate_chunk crcZero 608 32 4294967295 3694703591 3028871461 t19 (by decide)
  have t21 : crcZero^[672] 4294967295 = 911164814 :=
    iterate_chunk crcZero 640 32 4294967295 3028871461 911164814 t20 (by decide)
  have t22 : crcZero^[704] 4294967295 = 774645715 :=
    iterate_chunk crcZero 672 32 4294967295 911164814 774645715 t21 (by decide)
  have t23 : crcZero^[736] 4294967295 = 2778976185 :=
    iterate_chunk crcZero 704 32 4294967295 774645715 2778976185 t22 (by decide)
  have t24 : crcZero^[768] 4294967295 = 174001130 :=
    iterate_chunk crcZero 736 32 4294967295 2778976185 174001130 t23 (by decide)
  have t25 : crcZero^[800] 4294967295 = 2540723484 :=
    iterate_chunk crcZero 768 32 4294967295 174001130 2540723484 t24 (by decide)
  have t26 : crcZero^[832] 4294967295 = 1021293313 :=
    iterate_chunk crcZero 800 32 4294967295 2540723484 1021293313 t25 (by decide)
  have t27 : crcZero^[864] 4294967295 = 1750105073 :=
    iterate_chunk crcZero 832 32 4294967295 1021293313 1750105073 t26 (by decide)
  have t28 : crcZero^[896] 4294967295 = 2915205440 :=
    iterate_chunk crcZero 864 32 4294967295 1750105073 2915205440 t27 (by decide)
  have t29 : crcZero^[928] 4294967295 = 2500256136 :=
    iterate_chunk crcZero 896 32 4294967295 2915205440 2500256136 t28 (by decide)
  have t30 : crcZero^[960] 4294967295 = 3340631940 :=
    iterate_chunk crcZero 928 32 4294967295 2500256136 3340631940 t29 (by decide)
  have t31 : crcZero^[992] 4294967295 = 3504303621 :=
    iterate_chunk crcZero 960 32 4294967295 3340631940 3504303621 t30 (by decide)
  have t32 : crcZero^[1024] 4294967295 = 273305809 :=
    iterate_chunk crcZero 992 32 4294967295 3504303621 273305809 t31 (by decide)
  have t33 : crcZero^[1056] 4294967295 = 1291170080 :=
    iterate_chunk crcZero 1024 32 4294967295 273305809 1291170080 t32 (by decide)
  have t34 : crcZero^[1088] 4294967295 = 956399015 :=
    iterate_chunk crcZero 1056 32 4294967295 1291170080 956399015 t33 (by decide)
  have t35 : crcZero^[1120] 4294967295 = 1842508385 :=
    iterate_chunk crcZero 1088 32 4294967295 956399015 1842508385 t34 (by decide)
  have t36 : crcZero^[1152] 4294967295 = 1587783631 :=
    iterate_chunk crcZero 1120 32 4294967295 1842508385 1587783631 t35 (by decide)
  have t37 : crcZero^[1184] 4294967295 = 2920942232 :=
    iterate_chunk crcZero 1152 32 4294967295 1587783631 2920942232 t36 (by decide)
  have t38 : crcZero^[1216] 4294967295 = 1242704402 :=
    iterate_chunk crcZero 1184 32 4294967295 2920942232 1242704402 t37 (by decide)
  have t39 : crcZero^[1248] 4294967295 = 1588550552 :=
    iterate_chunk crcZero 1216 32 4294967295 1242704402 1588550552 t38 (by decide)
  have t40 : crcZero^[1280] 4294967295 = 54289050 :=
    iterate_chunk crcZero 1248 32 4294967295 1588550552 54289050 t39 (by decide)
  have t41 : crcZero^[1312] 4294967295 = 3302058154 :=
    iterate_chunk crcZero 1280 32 4294967295 54289050 3302058154 t40 (by decide)
  have t42 : crcZero^[1344] 4294967295 = 3715110281 :=
    iterate_chunk crcZero 1312 32 4294967295 3302058154 3715110281 t41 (by decide)
  have t43 : crcZero^[1376] 4294967295 = 760775255 :=
    iterate_chunk crcZero 1344 32 4294967295 3715110281 760775255 t42 (by decide)
  have t44 : crcZero^[1408] 4294967295 = 3478704552 :=
    iterate_chunk crcZero 1376 32 4294967295 760775255 3478704552 t43 (by decide)
  have t45 : crcZero^[1440] 4294967295 = 1441720677 :=
    iterate_chunk crcZero 1408 32 4294967295 3478704552 1441720677 t44 (by decide)
  have t46 : crcZero^[1472] 4294967295 = 491109441 :=
    iterate_chunk crcZero 1440 32 4294967295 1441720677 491109441 t45 (by decide)
  have t47 : crcZero^[1504] 4294967295 = 4135768324 :=
    iterate_chunk crcZero 1472 32 4294967295 491109441 4135768324 t46 (by decide)
  have t48 : crcZero^[1536] 4294967295 = 2481135233 :=
    iterate_chunk crcZero 1504 32 4294967295 4135768324 2481135233 t47 (by decide)
  have t49 : crcZero^[1568] 4294967295 = 3868792732 :=
    iterate_chunk crcZero 1536 32 4294967295 2481135233 3868792732 t48 (by decide)
  have t50 : crcZero^[1600] 4294967295 = 988709578 :=
    iterate_chunk crcZero 1568 32 4294967295 3868792732 988709578 t49 (by decide)
  have t51 : crcZero^[1632] 4294967295 = 114656705 :=
    iterate_chunk crcZero 1600 32 4294967295 988709578 114656705 t50 (by decide)
  have t52 : crcZero^[1664] 4294967295 = 1074817599 :=
    iterate_chunk crcZero 1632 32 4294967295 114656705 1074817599 t51 (by decide)
  have t53 : crcZero^[1696] 4294967295 = 408102054 :=
    iterate_chunk crcZero 1664 32 4294967295 1074817599 408102054 t52 (by decide)
  have t54 : crcZero^[1728] 4294967295 = 2713560436 :=
    iterate_chunk crcZero 1696 32 4294967295 408102054 2713560436 t53 (by decide)
  have t55 : crcZero^[1760] 4294967295 = 40326585 :=
    iterate_chunk crcZero 1728 32 4294967295 2713560436 40326585 t54 (by decide)
  have t56 : crcZero^[1792] 4294967295 = 2177146615 :=
    iterate_chunk crcZero 1760 32 4294967295 40326585 2177146615 t55 (by decide)
  have t57 : crcZero^[1824] 4294967295 = 4149581769 :=
    iterate_chunk crcZero 1792 32 4294967295 2177146615 4149581769 t56 (by decide)
  have t58 : crcZero^[1856] 4294967295 = 3385517400 :=
    iterate_chunk crcZero 1824 32 4294967295 4149581769 3385517400 t57 (by decide)
  have t59 : crcZero^[1888] 4294967295 = 2533974686 :=
    iterate_chunk crcZero 1856 32 4294967295 3385517400 2533974686 t58 (by decide)
  have t60 : crcZero^[1920] 4294967295 = 3578317780 :=
    iterate_chunk crcZero 1888 32 4294967295 2533974686 3578317780 t59 (by decide)
  have t61 : crcZero^[1952] 4294967295 = 2407994195 :=
    iterate_chunk crcZero 1920 32 4294967295 3578317780 2407994195 t60 (by decide)
  have t62 : crcZero^[1984] 4294967295 = 1762434442 :=
    iterate_chunk crcZero 1952 32 4294967295 2407994195 1762434442 t61 (by decide)
  have t63 : crcZero^[2016] 4294967295 = 661394363 :=
    iterate_chunk crcZero 1984 32 4294967295 1762434442 661394363 t62 (by decide)
  have t64 : crcZero^[2048] 4294967295 = 236406113 :=
    iterate_chunk crcZero 2016 32 4294967295 661394363 236406113 t63 (by decide)
  have t65 : crcZero^[2080] 4294967295 = 2115932298 :=
    iterate_chunk crcZero 2048 32 4294967295 236406113 2115932298 t64 (by decide)
  have t66 : crcZero^[2112] 4294967295 = 430465036 :=
    iterate_chunk crcZero 2080 32 4294967295 2115932298 430465036 t65 (by decide)
  have t67 : crcZero^[2144] 4294967295 = 959713737 :=
    iterate_chunk crcZero 2112 32 4294967295 430465036 959713737 t66 (by decide)
  have t68 : crcZero^[2176] 4294967295 = 2428362045 :=
    iterate_chunk crcZero 2144 32 4294967295 959713737 2428362045 t67 (by decide)
  have t69 : crcZero^[2208] 4294967295 = 3342235826 :=
    iterate_chunk crcZero 2176 32 4294967295 2428362045 3342235826 t68 (by decide)
  have t70 : crcZero^[2240] 4294967295 = 368272047 :=
    iterate_chunk crcZero 2208 32 4294967295 3342235826 368272047 t69 (by decide)
  have t71 : crcZero^[2272] 4294967295 = 3503633519 :=
    iterate_chunk crcZero 2240 32 4294967295 368272047 3503633519 t70 (by decide)
  have t72 : crcZero^[2304] 4294967295 = 1332606223 :=
    iterate_chunk crcZero 2272 32 4294967295 3503633519 1332606223 t71 (by decide)
  have t73 : crcZero^[2336] 4294967295 = 2963585231 :=
    iterate_chunk crcZero 2304 32 4294967295 1332606223 2963585231 t72 (by decide)
  have t74 : crcZero^[2368] 4294967295 = 3628120070 :=
    iterate_chunk crcZero 2336 32 4294967295 2963585231 3628120070 t73 (by decide)
  have t75 : crcZero^[2400] 4294967295 = 1655983317 :=
    iterate_chunk crcZero 2368 32 4294967295 3628120070 1655983317 t74 (by decide)
  have t76 : crcZero^[2432] 4294967295 = 1987433707 :=
    iterate_chunk crcZero 2400 32 4294967295 1655983317 1987433707 t75 (by decide)
  have t77 : crcZero^[2464] 4294967295 = 3090213024 :=
    iterate_chunk crcZero 2432 32 4294967295 1987433707 3090213024 t76 (by decide)
  have t78 : crcZero^[2496] 4294967295 = 859886705 :=
    iterate_chunk crcZero 2464 32 4294967295 3090213024 859886705 t77 (by decide)
  have t79 : crcZero^[2528] 4294967295 = 2323408460 :=
    iterate_chunk crcZero 2496 32 4294967295 859886705 2323408460 t78 (by decide)
  have t80 : crcZero^[2560] 4294967295 = 210692533 :=
    iterate_chunk crcZero 2528 32 4294967295 2323408460 210692533 t79 (by decide)
  have t81 : crcZero^[2592] 4294967295 = 1527332701 :=
    iterate_chunk crcZero 2560 32 4294967295 210692533 1527332701 t80 (by decide)
  have t82 : crcZero^[2624] 4294967295 = 1119441730 :=
    iterate_chunk crcZero 2592 32 4294967295 1527332701 1119441730 t81 (by decide)
  have t83 : crcZero^[2656] 4294967295 = 2884756242 :=
    iterate_chunk crcZero 2624 32 4294967295 1119441730 2884756242 t82 (by decide)
  have t84 : crcZero^[2688] 4294967295 = 2488302934 :=
    iterate_chunk crcZero 2656 32 4294967295 2884756242 2488302934 t83 (by decide)
  have t85 : crcZero^[2720] 4294967295 = 3510058733 :=
    iterate_chunk crcZero 2688 32 4294967295 2488302934 3510058733 t84 (by decide)
  have t86 : crcZero^[2752] 4294967295 = 617571731 :=
    iterate_chunk crcZero 2720 32 4294967295 3510058733 617571731 t85 (by decide)
  have t87 : crcZero^[2784] 4294967295 = 653897040 :=
    iterate_chunk crcZero 2752 32 4294967295 617571731 653897040 t86 (by decide)
  have t88 : crcZero^[2816] 4294967295 = 3357989555 :=
    iterate_chunk crcZero 2784 32 4294967295 653897040 3357989555 t87 (by decide)
  have t89 : crcZero^[2848] 4294967295 = 3423349599 :=
    iterate_chunk crcZero 2816 32 4294967295 3357989555 3423349599 t88 (by decide)
  have t90 : crcZero^[2880] 4294967295 = 4222805565 :=
    iterate_chunk crcZero 2848 32 4294967295 3423349599 4222805565 t89 (by decide)
  have t91 : crcZero^[2912] 4294967295 = 1812114771 :=
    iterate_chunk crcZero 2880 32 4294967295 4222805565 1812114771 t90 (by decide)
  have t92 : crcZero^[2944] 4294967295 = 3690659573 :=
    iterate_chunk crcZero 2912 32 4294967295 1812114771 3690659573 t91 (by decide)
  have t93 : crcZero^[2976] 4294967295 = 2142136944 :=
    iterate_chunk crcZero 2944 32 4294967295 3690659573 2142136944 t92 (by decide)
  have t94 : crcZero^[3008] 4294967295 = 732305463 :=
    iterate_chunk crcZero 2976 32 4294967295 2142136944 732305463 t93 (by decide)
  have t95 : crcZero^[3040] 4294967295 = 2182219285 :=
    iterate_chunk crcZero 3008 32 4294967295 732305463 2182219285 t94 (by decide)
  have t96 : crcZero^[3072] 4294967295 = 2551789179 :=
    iterate_chunk crcZero 3040 32 4294967295 2182219285 2551789179 t95 (by decide)
  exact t96

/-- CRC register after the red first pixel and the 3069 remaining zero
bytes of the one-red-pixel frame, evaluated in bounded chunks. -/
theorem crc_reg_red : crcZero^[3069] 3190166016 = 1093879229 := by
  have t1 : crcZero^[32] 3190166016 = 433887069 := by decide
  have t2 : crcZero^[64] 3190166016 = 147438913 :=
    iterate_chunk crcZero 32 32 3190166016 433887069 147438913 t1 (by decide)
  have t3 : crcZero^[96] 3190166016 = 2998038934 :=
    iterate_chunk crcZero 64 32 3190166016 147438913 2998038934 t2 (by decide)
  have t4 : crcZero^[128] 3190166016 = 4125327312 :=
    iterate_chunk crcZero 96 32 3190166016 2998038934 4125327312 t3 (by decide)
  have t5 : crcZero^[160] 3190166016 = 1211955468 :=
    iterate_chunk crcZero 128 32 3190166016 4125327312 1211955468 t4 (by decide)
  have t6 : crcZero^[192] 3190166016 = 2469426498 :=
    iterate_chunk crcZero 160 32 3190166016 1211955468 2469426498 t5 (by decide)
  have t7 : crcZero^[224] 3190166016 = 3248786262 :=
    iterate_chunk crcZero 192 32 3190166016 2469426498 3248786262 t6 (by decide)
  have t8 : crcZero^[256] 3190166016 = 2186825446 :=
    iterate_chunk crcZero 224 32 3190166016 3248786262 2186825446 t7 (by decide)
  have t9 : crcZero^[288] 3190166016 = 3373404417 :=
    iterate_chunk crcZero 256 32 3190166016 2186825446 3373404417 t8 (by decide)
  have t10 : crcZero^[320] 3190166016 = 1332135302 :=
    iterate_chunk crcZero 288 32 3190166016 3373404417 1332135302 t9 (by decide)
  have t11 : crcZero^[352] 3190166016 = 3716437009 :=
    iterate_chunk crcZero 320 32 3190166016 1332135302 3716437009 t10 (by decide)
  have t12 : crcZero^[384] 3190166016 = 1909763404 :=
    iterate_chunk crcZero 352 32 3190166016 3716437009 1909763404 t11 (by decide)
  have t13 : crcZero^[416] 3190166016 = 1370696038 :=
    iterate_chunk crcZero 384 32 3190166016 1909763404 1370696038 t12 (by decide)
  have t14 : crcZero^[448] 3190166016 = 262415371 :=
    iterate_chunk crcZero 416 32 3190166016 1370696038 262415371 t13 (by decide)
  have t15 : crcZero^[480] 3190166016 = 1803179879 :=
    iterate_chunk crcZero 448 32 3190166016 262415371 1803179879 t14 (by decide)
  have t16 : crcZero^[512] 3190166016 = 1549057290 :=
    iterate_chunk crcZero 480 32 3190166016 1803179879 1549057290 t15 (by decide)
  have t17 : crcZero^[544] 3190166016 = 4264658531 :=
    iterate_chunk crcZero 512 32 3190166016 1549057290 4264658531 t16 (by decide)
  have t18 : crcZero^[576] 3190166016 = 3887730089 :=
    iterate_chunk crcZero 544 32 3190166016 4264658531 3887730089 t17 (by decide)
  have t19 : crcZero^[608] 3190166016 = 3752177779 :=
    iterate_chunk crcZero 576 32 3190166016 3887730089 3752177779 t18 (by decide)
  have t20 : crcZero^[640] 3190166016 = 810162440 :=
    iterate_chunk crcZero 608 32 3190166016 3752177779 810162440 t19 (by decide)
  have t21 : crcZero^[672] 3190166016 = 2095884299 :=
    iterate_chunk crcZero 640 32 3190166016 810162440 2095884299 t20 (by decide)
  have t22 : crcZero^[704] 3190166016 = 2597121938 :=
    iterate_chunk crcZero 672 32 3190166016 2095884299 2597121938 t21 (by decide)
  have t23 : crcZero^[736] 3190166016 = 1706398359 :=
    iterate_chunk crcZero 704 32 3190166016 2597121938 1706398359 t22 (by decide)
  have t24 : crcZero^[768] 3190166016 = 1542093015 :=
    iterate_chunk crcZero 736 32 3190166016 1706398359 1542093015 t23 (by decide)
  have t25 : crcZero^[800] 3190166016 = 3627546745 :=
    iterate_chunk crcZero 768 32 3190166016 1542093015 3627546745 t24 (by decide)
  have t26 : crcZero^[832] 3190166016 = 1484013886 :=
    iterate_chunk crcZero 800 32 3190166016 3627546745 1484013886 t25 (by decide)
  have t27 : crcZero^[864] 3190166016 = 2862352476 :=
    iterate_chunk crcZero 832 32 3190166016 1484013886 2862352476 t26 (by decide)
  have t28 : crcZero^[896] 3190166016 = 1448536325 :=
    iterate_chunk crcZero 864 32 3190166016 2862352476 1448536325 t27 (by decide)
  have t29 : crcZero^[928] 3190166016 = 1868236750 :=
    iterate_chunk crcZero 896 32 3190166016 1448536325 1868236750 t28 (by decide)
  have t30 : crcZero^[960] 3190166016 = 4115884641 :=
    iterate_chunk crcZero 928 32 3190166016 1868236750 4115884641 t29 (by decide)
  have t31 : crcZero^[992] 3190166016 = 259479236 :=
    iterate_chunk crcZero 960 32 3190166016 4115884641 259479236 t30 (by decide)
  have t32 : crcZero^[1024] 3190166016 = 1233110682 :=
    iterate_chunk crcZero 992 32 3190166016 259479236 1233110682 t31 (by decide)
  have t33 : crcZero^[1056] 3190166016 = 2767207527 :=
    iterate_chunk crcZero 1024 32 3190166016 1233110682 2767207527 t32 (by decide)
  have t34 : crcZero^[1088] 3190166016 = 2257214903 :=
    iterate_chunk crcZero 1056 32 3190166016 2767207527 2257214903 t33 (by decide)
  have t35 : crcZero^[1120] 3190166016 = 3684956061 :=
    iterate_chunk crcZero 1088 32 3190166016 2257214903 3684956061 t34 (by decide)
  have t36 : crcZero^[1152] 3190166016 = 3331236169 :=
    iterate_chunk crcZero 1120 32 3190166016 3684956061 3331236169 t35 (by decide)
  have t37 : crcZero^[1184] 3190166016 = 4210369581 :=
    iterate_chunk crcZero 1152 32 3190166016 3331236169 4210369581 t36 (by decide)
  have t38 : crcZero^[1216] 3190166016 = 3008945419 :=
    iterate_chunk crcZero 1184 32 3190166016 4210369581 3008945419 t37 (by decide)
  have t39 : crcZero^[1248] 3190166016 = 3741558374 :=
    iterate_chunk crcZero 1216 32 3190166016 3008945419 3741558374 t38 (by decide)
  have t40 : crcZero^[1280] 3190166016 = 1014253873 :=
    iterate_chunk crcZero 1248 32 3190166016 3741558374 1014253873 t39 (by decide)
  have t41 : crcZero^[1312] 3190166016 = 1897736280 :=
    iterate_chunk crcZero 1280 32 3190166016 1014253873 1897736280 t40 (by decide)
  have t42 : crcZero^[1344] 3190166016 = 998015078 :=
    iterate_chunk crcZero 1312 32 3190166016 1897736280 998015078 t41 (by decide)
  have t43 : crcZero^[1376] 3190166016 = 55844643 :=
    iterate_chunk crcZero 1344 32 3190166016 998015078 55844643 t42 (by decide)
  have t44 : crcZero^[1408] 3190166016 = 2130553285 :=
    iterate_chunk crcZero 1376 32 3190166016 55844643 2130553285 t43 (by decide)
  have t45 : crcZero^[1440] 3190166016 = 727549318 :=
    iterate_chunk crcZero 1408 32 3190166016 2130553285 727549318 t44 (by decide)
  have t46 : crcZero^[1472] 3190166016 = 3359658881 :=
    iterate_chunk crcZero 1440 32 3190166016 727549318 3359658881 t45 (by decide)
  have t47 : crcZero^[1504] 3190166016 = 3297873617 :=
    iterate_chunk crcZero 1472 32 3190166016 3359658881 3297873617 t46 (by decide)
  have t48 : crcZero^[1536] 3190166016 = 2378231925 :=
    iterate_chunk crcZero 1504 32 3190166016 3297873617 2378231925 t47 (by decide)
  have t49 : crcZero^[1568] 3190166016 = 1955714570 :=
    iterate_chunk crcZero 1536 32 3190166016 2378231925 1955714570 t48 (by decide)
  have t50 : crcZero^[1600] 3190166016 = 237990177 :=
    iterate_chunk crcZero 1568 32 3190166016 1955714570 237990177 t49 (by decide)
  have t51 : crcZero^[1632] 3190166016 = 1884570396 :=
    iterate_chunk crcZero 1600 32 3190166016 237990177 1884570396 t50 (by decide)
  have t52 : crcZero^[1664] 3190166016 = 750823636 :=
    iterate_chunk crcZero 1632 32 3190166016 1884570396 750823636 t51 (by decide)
  have t53 : crcZero^[1696] 3190166016 = 2616079009 :=
    iterate_chunk crcZero 1664 32 3190166016 750823636 2616079009 t52 (by decide)
  have t54 : crcZero^[1728] 3190166016 = 3427698536 :=
    iterate_chunk crcZero 1696 32 3190166016 2616079009 3427698536 t53 (by decide)
  have t55 : crcZero^[1760] 3190166016 = 1372651491 :=
    iterate_chunk crcZero 1728 32 3190166016 3427698536 1372651491 t54 (by decide)
  have t56 : crcZero^[1792] 3190166016 = 25252134 :=
    iterate_chunk crcZero 1760 32 3190166016 1372651491 25252134 t55 (by decide)
  have t57 : crcZero^[1824] 3190166016 = 4070064464 :=
    iterate_chunk crcZero 1792 32 3190166016 25252134 4070064464 t56 (by decide)
  have t58 : crcZero^[1856] 3190166016 = 489597872 :=
    iterate_chunk crcZero 1824 32 3190166016 4070064464 489597872 t57 (by decide)
  have t59 : crcZero^[1888] 3190166016 = 4229564682 :=
    iterate_chunk crcZero 1856 32 3190166016 489597872 4229564682 t58 (by decide)
  have t60 : crcZero^[1920] 3190166016 = 2686125647 :=
    iterate_chunk crcZero 1888 32 3190166016 4229564682 2686125647 t59 (by decide)
  have t61 : crcZero^[1952] 3190166016 = 1057851773 :=
    iterate_chunk crcZero 1920 32 3190166016 2686125647 1057851773 t60 (by decide)
  have t62 : crcZero^[1984] 3190166016 = 2938491118 :=
    iterate_chunk crcZero 1952 32 3190166016 1057851773 2938491118 t61 (by decide)
  have t63 : crcZero^[2016] 3190166016 = 3138538709 :=
    iterate_chunk crcZero 1984 32 3190166016 2938491118 3138538709 t62 (by decide)
  have t64 : crcZero^[2048] 3190166016 = 4289517751 :=
    iterate_chunk crcZero 2016 32 3190166016 3138538709 4289517751 t63 (by decide)
  have t65 : crcZero^[2080] 3190166016 = 1932741799 :=
    iterate_chunk crcZero 2048 32 3190166016 4289517751 1932741799 t64 (by decide)
  have t66 : crcZero^[2112] 3190166016 = 2102444266 :=
    iterate_chunk crcZero 2080 32 3190166016 1932741799 2102444266 t65 (by decide)
  have t67 : crcZero^[2144] 3190166016 = 3152313020 :=
    iterate_chunk crcZero 2112 32 3190166016 2102444266 3152313020 t66 (by decide)
  have t68 : crcZero^[2176] 3190166016 = 1545828421 :=
    iterate_chunk crcZero 2144 32 3190166016 3152313020 1545828421 t67 (by decide)
  have t69 : crcZero^[2208] 3190166016 = 3360817826 :=
    iterate_chunk crcZero 2176 32 3190166016 1545828421 3360817826 t68 (by decide)
  have t70 : crcZero^[2240] 3190166016 = 3499162797 :=
    iterate_chunk crcZero 2208 32 3190166016 3360817826 3499162797 t69 (by decide)
  have t71 : crcZero^[2272] 3190166016 = 1530110553 :=
    iterate_chunk crcZero 2240 32 3190166016 3499162797 1530110553 t70 (by decide)
  have t72 : crcZero^[2304] 3190166016 = 1354310902 :=
    iterate_chunk crcZero 2272 32 3190166016 1530110553 1354310902 t71 (by decide)
  have t73 : crcZero^[2336] 3190166016 = 2579575170 :=
    iterate_chunk crcZero 2304 32 3190166016 1354310902 2579575170 t72 (by decide)
  have t74 : crcZero^[2368] 3190166016 = 2252871171 :=
    iterate_chunk crcZero 2336 32 3190166016 2579575170 2252871171 t73 (by decide)
  have t75 : crcZero^[2400] 3190166016 = 1569042998 :=
    iterate_chunk crcZero 2368 32 3190166016 2252871171 1569042998 t74 (by decide)
  have t76 : crcZero^[2432] 3190166016 = 302373740 :=
    iterate_chunk crcZero 2400 32 3190166016 1569042998 302373740 t75 (by decide)
  have t77 : crcZero^[2464] 3190166016 = 3408700352 :=
    iterate_chunk crcZero 2432 32 3190166016 302373740 3408700352 t76 (by decide)
  have t78 : crcZero^[2496] 3190166016 = 756064232 :=
    iterate_chunk crcZero 2464 32 3190166016 3408700352 756064232 t77 (by decide)
  have t79 : crcZero^[2528] 3190166016 = 3581369183 :=
    iterate_chunk crcZero 2496 32 3190166016 756064232 3581369183 t78 (by decide)
  have t80 : crcZero^[2560] 3190166016 = 2741589851 :=
    iterate_chunk crcZero 2528 32 3190166016 3581369183 2741589851 t79 (by decide)
  have t81 : crcZero^[2592] 3190166016 = 3898851214 :=
    iterate_chunk crcZero 2560 32 3190166016 2741589851 3898851214 t80 (by decide)
  have t82 : crcZero^[2624] 3190166016 = 3062716844 :=
    iterate_chunk crcZero 2592 32 3190166016 3898851214 3062716844 t81 (by decide)
  have t83 : crcZero^[2656] 3190166016 = 845430445 :=
    iterate_chunk crcZero 2624 32 3190166016 3062716844 845430445 t82 (by decide)
  have t84 : crcZero^[2688] 3190166016 = 2501707066 :=
    iterate_chunk crcZero 2656 32 3190166016 845430445 2501707066 t83 (by decide)
  have t85 : crcZero^[2720] 3190166016 = 335071130 :=
    iterate_chunk crcZero 2688 32 3190166016 2501707066 335071130 t84 (by decide)
  have t86 : crcZero^[2752] 3190166016 = 3055310116 :=
    iterate_chunk crcZero 2720 32 3190166016 335071130 3055310116 t85 (by decide)
  have t87 : crcZero^[2784] 3190166016 = 169126885 :=
    iterate_chunk crcZero 2752 32 3190166016 3055310116 169126885 t86 (by decide)
  have t88 : crcZero^[2816] 3190166016 = 2975587176 :=
    iterate_chunk crcZero 2784 32 3190166016 169126885 2975587176 t87 (by decide)
  have t89 : crcZero^[2848] 3190166016 = 4248120601 :=
    iterate_chunk crcZero 2816 32 3190166016 2975587176 4248120601 t88 (by decide)
  have t90 : crcZero^[2880] 3190166016 = 1204144421 :=
    iterate_chunk crcZero 2848 32 3190166016 4248120601 1204144421 t89 (by decide)
  have t91 : crcZero^[2912] 3190166016 = 2992924628 :=
    iterate_chunk crcZero 2880 32 3190166016 1204144421 2992924628 t90 (by decide)
  have t92 : crcZero^[2944] 3190166016 = 2692831870 :=
    iterate_chunk crcZero 2912 32 3190166016 2992924628 2692831870 t91 (by decide)
  have t93 : crcZero^[2976] 3190166016 = 1159882611 :=
    iterate_chunk crcZero 2944 32 3190166016 2692831870 1159882611 t92 (by decide)
  have t94 : crcZero^[3008] 3190166016 = 1618183554 :=
    iterate_chunk crcZero 2976 32 3190166016 1159882611 1618183554 t93 (by decide)
  have t95 : crcZero^[3040] 3190166016 = 2487481735 :=
    iterate_chunk crcZero 3008 32 3190166016 1618183554 2487481735 t94 (by decide)
  have t96 : crcZero^[3069] 3190166016 = 1093879229 :=
    iterate_chunk crcZero 3040 29 3190166016 2487481735 1093879229 t95 (by decide)
  exact t96

/-- crc32_compute of the all-black 32x32 frame. -/
theorem crc32_blackFrame : crc32_compute (frameBytes blackFrame) = 1743178116 := by
  unfold blackFrame
  rw [frameBytes_replicate_zero, crc32_compute, foldl_crcStep_replicate,
    (by norm_num : 3 * 1024 = 3072), crc_reg_black]
  decide

/-- crc32_compute of the one-red-pixel 32x32 frame. -/
theorem crc32_oneRedFrame : crc32_compute (frameBytes oneRedFrame) = 3201088066 := by
  have h1 : frameBytes oneRedFrame = (Pixel.mk 255 0 0).r :: (Pixel.mk 255 0 0).g ::
      (Pixel.mk 255 0 0).b :: List.replicate (3 * 1023) 0 := by
    unfold oneRedFrame
    rw [frameBytes_cons, frameBytes_replicate_zero]
  have h3 : crcStep (crcStep (crcStep 4294967295 (Pixel.mk 255 0 0).r)
      (Pixel.mk 255 0 0).g) (Pixel.mk 255 0 0).b = 3190166016 := by decide
  have h2 : List.foldl crcStep 4294967295 (frameBytes oneRedFrame) = 1093879229 := by
    rw [h1]
    simp only [List.foldl_cons]
    rw [foldl_crcStep_replicate, (by norm_num : 3 * 1023 = 3069), h3, crc_reg_red]
  rw [crc32_compute, h2]
  decide

/-- CRC register after the 3048 trailing zero bytes of collisionFrame,
evaluated in bounded chunks of 32 zero-byte steps. -/
theorem crc_reg_coll : crcZero^[3048] 1547580895 = 2551789179 := by
  have t1 : crcZero^[32] 1547580895 = 741825206 := by decide
  have t2 : crcZero^[64] 1547580895 = 79538098 :=
    iterate_chunk crcZero 32 32 1547580895 741825206 79538098 t1 (by decide)
  have t3 : crcZero^[96] 1547580895 = 3332539864 :=
    iterate_chunk crcZero 64 32 1547580895 79538098 3332539864 t2 (by decide)
  have t4 : crcZero^[128] 1547580895 = 3900927270 :=
    iterate_chunk crcZero 96 32 1547580895 3332539864 3900927270 t3 (by decide)
  have t5 : crcZero^[160] 1547580895 = 2950934601 :=
    iterate_chunk crcZero 128 32 1547580895 3900927270 2950934601 t4 (by decide)
  have t6 : crcZero^[192] 1547580895 = 2070577298 :=
    iterate_chunk crcZero 160 32 1547580895 2950934601 2070577298 t5 (by decide)
  have t7 : crcZero^[224] 1547580895 = 1166291515 :=
    iterate_chunk crcZero 192 32 1547580895 2070577298 1166291515 t6 (by decide)
  have t8 : crcZero^[256] 1547580895 = 2063936147 :=
    iterate_chunk crcZero 224 32 1547580895 1166291515 2063936147 t7 (by decide)
  have t9 : crcZero^[288] 1547580895 = 3009410090 :=
    iterate_chunk crcZero 256 32 1547580895 2063936147 3009410090 t8 (by decide)
  have t10 : crcZero^[320] 1547580895 = 3743245598 :=
    iterate_chunk crcZero 288 32 1547580895 3009410090 3743245598 t9 (by decide)
  have t11 : crcZero^[352] 1547580895 = 1312189948 :=
    iterate_chunk crcZero 320 32 1547580895 3743245598 1312189948 t10 (by decide)
  have t12 : crcZero^[384] 1547580895 = 829578701 :=
    iterate_chunk crcZero 352 32 1547580895 1312189948 829578701 t11 (by decide)
  have t13 : crcZero^[416] 1547580895 = 2647679938 :=
    iterate_chunk crcZero 384 32 1547580895 829578701 2647679938 t12 (by decide)
  have t14 : crcZero^[448] 1547580895 = 342258700 :=
    iterate_chunk crcZero 416 32 1547580895 2647679938 342258700 t13 (by decide)
  have t15 : crcZero^[480] 1547580895 = 3994423072 :=
    iterate_chunk crcZero 448 32 1547580895 342258700 3994423072 t14 (by decide)
  have t16 : crcZero^[512] 1547580895 = 3994697046 :=
    iterate_chunk crcZero 480 32 1547580895 3994423072 3994697046 t15 (by decide)
  have t17 : crcZero^[544] 1547580895 = 3356749828 :=
    iterate_chunk crcZero 512 32 1547580895 3994697046 3356749828 t16 (by decide)
  have t18 : crcZero^[576] 1547580895 = 2282905052 :=
    iterate_chunk crcZero 544 32 1547580895 3356749828 2282905052 t17 (by decide)
  have t19 : crcZero^[608] 1547580895 = 4175132330 :=
    iterate_chunk crcZero 576 32 1547580895 2282905052 4175132330 t18 (by decide)
  have t20 : crcZero^[640] 1547580895 = 2337030875 :=
    iterate_chunk crcZero 608 32 1547580895 4175132330 2337030875 t19 (by decide)
  have t21 : crcZero^[672] 1547580895 = 2376712326 :=
    iterate_chunk crcZero 640 32 1547580895 2337030875 2376712326 t20 (by decide)
  have t22 : crcZero^[704] 1547580895 = 288768855 :=
    iterate_chunk crcZero 672 32 1547580895 2376712326 288768855 t21 (by decide)
  have t23 : crcZero^[736] 1547580895 = 824220798 :=
    iterate_chunk crcZero 704 32 1547580895 288768855 824220798 t22 (by decide)
  have t24 : crcZero^[768] 1547580895 = 2529952450 :=
    iterate_chunk crcZero 736 32 1547580895 824220798 2529952450 t23 (by decide)
  have t25 : crcZero^[800] 1547580895 = 2698557587 :=
    iterate_chunk crcZero 768 32 1547580895 2529952450 2698557587 t24 (by decide)
  have t26 : crcZero^[832] 1547580895 = 3828018782 :=
    iterate_chunk crcZero 800 32 1547580895 2698557587 3828018782 t25 (by decide)
  have t27 : crcZero^[864] 1547580895 = 1050544793 :=
    iterate_chunk crcZero 832 32 1547580895 3828018782 1050544793 t26 (by decide)
  have t28 : crcZero^[896] 1547580895 = 274907041 :=
    iterate_chunk crcZero 864 32 1547580895 1050544793 274907041 t27 (by decide)
  have t29 : crcZero^[928] 1547580895 = 2398705186 :=
    iterate_chunk crcZero 896 32 1547580895 274907041 2398705186 t28 (by decide)
  have t30 : crcZero^[960] 1547580895 = 2885606578 :=
    iterate_chunk crcZero 928 32 1547580895 2398705186 2885606578 t29 (by decide)
  have t31 : crcZero^[992] 1547580895 = 2131176763 :=
    iterate_chunk crcZero 960 32 1547580895 2885606578 2131176763 t30 (by decide)
  have t32 : crcZero^[1024] 1547580895 = 2267698194 :=
    iterate_chunk crcZero 992 32 1547580895 2131176763 2267698194 t31 (by decide)
  have t33 : crcZero^[1056] 1547580895 = 1091477868 :=
    iterate_chunk crcZero 1024 32 1547580895 2267698194 1091477868 t32 (by decide)
  have t34 : crcZero^[1088] 1547580895 = 1854963454 :=
    iterate_chunk crcZero 1056 32 1547580895 1091477868 1854963454 t33 (by decide)
  have t35 : crcZero^[1120] 1547580895 = 2065180246 :=
    iterate_chunk crcZero 1088 32 1547580895 1854963454 2065180246 t34 (by decide)
  have t36 : crcZero^[1152] 1547580895 = 1702399905 :=
    iterate_chunk crcZero 1120 32 1547580895 2065180246 1702399905 t35 (by decide)
  have t37 : crcZero^[1184] 1547580895 = 1168127788 :=
    iterate_chunk crcZero 1152 32 1547580895 1702399905 1168127788 t36 (by decide)
  have t38 : crcZero^[1216] 1547580895 = 4226476382 :=
    iterate_chunk crcZero 1184 32 1547580895 1168127788 4226476382 t37 (by decide)
  have t39 : crcZero^[1248] 1547580895 = 3843672943 :=
    iterate_chunk crcZero 1216 32 1547580895 4226476382 3843672943 t38 (by decide)
  have t40 : crcZero^[1280] 1547580895 = 1825133510 :=
    iterate_chunk crcZero 1248 32 1547580895 3843672943 1825133510 t39 (by decide)
  have t41 : crcZero^[1312] 1547580895 = 1343763791 :=
    iterate_chunk crcZero 1280 32 1547580895 1825133510 1343763791 t40 (by decide)
  have t42 : crcZero^[1344] 1547580895 = 1250809424 :=
    iterate_chunk crcZero 1312 32 1547580895 1343763791 1250809424 t41 (by decide)
  have t43 : crcZero^[1376] 1547580895 = 1800320891 :=
    iterate_chunk crcZero 1344 32 1547580895 1250809424 1800320891 t42 (by decide)
  have t44 : crcZero^[1408] 1547580895 = 2776653980 :=
    iterate_chunk crcZero 1376 32 1547580895 1800320891 2776653980 t43 (by decide)
  have t45 : crcZero^[1440] 1547580895 = 1408247294 :=
    iterate_chunk crcZero 1408 32 1547580895 2776653980 1408247294 t44 (by decide)
  have t46 : crcZero^[1472] 1547580895 = 3454897451 :=
    iterate_chunk crcZero 1440 32 1547580895 1408247294 3454897451 t45 (by decide)
  have t47 : crcZero^[1504] 1547580895 = 1890038648 :=
    iterate_chunk crcZero 1472 32 1547580895 3454897451 1890038648 t46 (by decide)
  have t48 : crcZero^[1536] 1547580895 = 378566522 :=
    iterate_chunk crcZero 1504 32 1547580895 1890038648 378566522 t47 (by decide)
  have t49 : crcZero^[1568] 1547580895 = 298094422 :=
    iterate_chunk crcZero 1536 32 1547580895 378566522 298094422 t48 (by decide)
  have t50 : crcZero^[1600] 1547580895 = 1573236115 :=
    iterate_chunk crcZero 1568 32 1547580895 298094422 1573236115 t49 (by decide)
  have t51 : crcZero^[1632] 1547580895 = 3944466832 :=
    iterate_chunk crcZero 1600 32 1547580895 1573236115 3944466832 t50 (by decide)
  have t52 : crcZero^[1664] 1547580895 = 3586000985 :=
    iterate_chunk crcZero 1632 32 1547580895 3944466832 3586000985 t51 (by decide)
  have t53 : crcZero^[1696] 1547580895 = 893135639 :=
    iterate_chunk crcZero 1664 32 1547580895 3586000985 893135639 t52 (by decide)
  have t54 : crcZero^[1728] 1547580895 = 4208452474 :=
    iterate_chunk crcZero 1696 32 1547580895 893135639 4208452474 t53 (by decide)
  have t55 : crcZero^[1760] 1547580895 = 3279386550 :=
    iterate_chunk crcZero 1728 32 1547580895 4208452474 3279386550 t54 (by decide)
  have t56 : crcZero^[1792] 1547580895 = 1212076970 :=
    iterate_chunk crcZero 1760 32 1547580895 3279386550 1212076970 t55 (by decide)
  have t57 : crcZero^[1824] 1547580895 = 532383164 :=
    iterate_chunk crcZero 1792 32 1547580895 1212076970 532383164 t56 (by decide)
  have t58 : crcZero^[1856] 1547580895 = 1927545483 :=
    iterate_chunk crcZero 1824 32 1547580895 532383164 1927545483 t57 (by decide)
  have t59 : crcZero^[1888] 1547580895 = 75524399 :=
    iterate_chunk crcZero 1856 32 1547580895 1927545483 75524399 t58 (by decide)
  have t60 : crcZero^[1920] 1547580895 = 1989345194 :=
    iterate_chunk crcZero 1888 32 1547580895 75524399 1989345194 t59 (by decide)
  have t61 : crcZero^[1952] 1547580895 = 581762771 :=
    iterate_chunk crcZero 1920 32 1547580895 1989345194 581762771 t60 (by decide)
  have t62 : crcZero^[1984] 1547580895 = 3944541783 :=
    iterate_chunk crcZero 1952 32 1547580895 581762771 3944541783 t61 (by decide)
  have t63 : crcZero^[2016] 1547580895 = 1755117902 :=
    iterate_chunk crcZero 1984 32 1547580895 3944541783 1755117902 t62 (by decide)
  have t64 : crcZero^[2048] 1547580895 = 3626715950 :=
    iterate_chunk crcZero 2016 32 1547580895 1755117902 3626715950 t63 (by decide)
  have t65 : crcZero^[2080] 1547580895 = 3576623427 :=
    iterate_chunk crcZero 2048 32 1547580895 3626715950 3576623427 t64 (by decide)
  have t66 : crcZero^[2112] 1547580895 = 869915201 :=
    iterate_chunk crcZero 2080 32 1547580895 3576623427 869915201 t65 (by decide)
  have t67 : crcZero^[2144] 1547580895 = 3112291456 :=
    iterate_chunk crcZero 2112 32 1547580895 869915201 3112291456 t66 (by decide)
  have t68 : crcZero^[2176] 1547580895 = 3392218174 :=
    iterate_chunk crcZero 2144 32 1547580895 3112291456 3392218174 t67 (by decide)
  have t69 : crcZero^[2208] 1547580895 = 4025990376 :=
    iterate_chunk crcZero 2176 32 1547580895 3392218174 4025990376 t68 (by decide)
  have t70 : crcZero^[2240] 1547580895 = 3786884251 :=
    iterate_chunk crcZero 2208 32 1547580895 4025990376 3786884251 t69 (by decide)
  have t71 : crcZero^[2272] 1547580895 = 3535747446 :=
    iterate_chunk crcZero 2240 32 1547580895 3786884251 3535747446 t70 (by decide)
  have t72 : crcZero^[2304] 1547580895 = 2099004177 :=
    iterate_chunk crcZero 2272 32 1547580895 3535747446 2099004177 t71 (by decide)
  have t73 : crcZero^[2336] 1547580895 = 4119205151 :=
    iterate_chunk crcZero 2304 32 1547580895 2099004177 4119205151 t72 (by decide)
  have t74 : crcZero^[2368] 1547580895 = 3666690509 :=
    iterate_chunk crcZero 2336 32 1547580895 4119205151 3666690509 t73 (by decide)
  have t75 : crcZero^[2400] 1547580895 = 1288377094 :=
    iterate_chunk crcZero 2368 32 1547580895 3666690509 1288377094 t74 (by decide)
  have t76 : crcZero^[2432] 1547580895 = 1854872378 :=
    iterate_chunk crcZero 2400 32 1547580895 1288377094 1854872378 t75 (by decide)
  have t77 : crcZero^[2464] 1547580895 = 1432884381 :=
    iterate_chunk crcZero 2432 32 1547580895 1854872378 1432884381 t76 (by decide)
  have t78 : crcZero^[2496] 1547580895 = 1145603146 :=
    iterate_chunk crcZero 2464 32 1547580895 1432884381 1145603146 t77 (by decide)
  have t79 : crcZero^[2528] 1547580895 = 2322850923 :=
    iterate_chunk crcZero 2496 32 1547580895 1145603146 2322850923 t78 (by decide)
  have t80 : crcZero^[2560] 1547580895 = 143853 :=
    iterate_chunk crcZero 2528 32 1547580895 2322850923 143853 t79 (by decide)
  have t81 : crcZero^[2592] 1547580895 = 1502381402 :=
    iterate_chunk crcZero 2560 32 1547580895 143853 1502381402 t80 (by decide)
  have t82 : crcZero^[2624] 1547580895 = 1567688698 :=
    iterate_chunk crcZero 2592 32 1547580895 1502381402 1567688698 t81 (by decide)
  have t83 : crcZero^[2656] 1547580895 = 2491039843 :=
    iterate_chunk crcZero 2624 32 1547580895 1567688698 2491039843 t82 (by decide)
  have t84 : crcZero^[2688] 1547580895 = 2086055471 :=
    iterate_chunk crcZero 2656 32 1547580895 2491039843 2086055471 t83 (by decide)
  have t85 : crcZero^[2720] 1547580895 = 396634633 :=
    iterate_chunk crcZero 2688 32 1547580895 2086055471 396634633 t84 (by decide)
  have t86 : crcZero^[2752] 1547580895 = 717498043 :=
    iterate_chunk crcZero 2720 32 1547580895 396634633 717498043 t85 (by decide)
  have t87 : crcZero^[2784] 1547580895 = 2684709701 :=
    iterate_chunk crcZero 2752 32 1547580895 717498043 2684709701 t86 (by decide)
  have t88 : crcZero^[2816] 1547580895 = 1876423089 :=
    iterate_chunk crcZero 2784 32 1547580895 2684709701 1876423089 t87 (by decide)
  have t89 : crcZero^[2848] 1547580895 = 3667955805 :=
    iterate_chunk crcZero 2816 32 1547580895 1876423089 3667955805 t88 (by decide)
  have t90 : crcZero^[2880] 1547580895 = 1587883789 :=
    iterate_chunk crcZero 2848 32 1547580895 3667955805 1587883789 t89 (by decide)
  have t91 : crcZero^[2912] 1547580895 = 3913070173 :=
    iterate_chunk crcZero 2880 32 1547580895 1587883789 3913070173 t90 (by decide)
  have t92 : crcZero^[2944] 1547580895 = 46397721 :=
    iterate_chunk crcZero 2912 32 1547580895 3913070173 46397721 t91 (by decide)
  have t93 : crcZero^[2976] 1547580895 = 628729074 :=
    iterate_chunk crcZero 2944 32 1547580895 46397721 628729074 t92 (by decide)
  have t94 : crcZero^[3008] 1547580895 = 3452523675 :=
    iterate_chunk crcZero 2976 32 1547580895 628729074 3452523675 t93 (by decide)
  have t95 : crcZero^[3040] 1547580895 = 726853920 :=
    iterate_chunk crcZero 3008 32 1547580895 3452523675 726853920 t94 (by decide)
  have t96 : crcZero^[3048] 1547580895 = 2551789179 :=
    iterate_chunk crcZero 3040 8 1547580895 726853920 2551789179 t95 (by decide)
  exact t96

/-- crc32_compute of collisionFrame: the same value as the all-black
frame's CRC32 — a genuine CRC32 collision between two frames that differ
in eight pixels. -/
theorem crc32_collisionFrame :
    crc32_compute (frameBytes collisionFrame) = 1743178116 := by
  have h1 : frameBytes collisionFrame =
      (Pixel.mk 255 0 0).r :: (Pixel.mk 255 0 0).g :: (Pixel.mk 255 0 0).b :: (Pixel.mk 255 0 0).r :: (Pixel.mk 255 0 0).g :: (Pixel.mk 255 0 0).b :: (Pixel.mk 255 0 0).r :: (Pixel.mk 255 0 0).g :: (Pixel.mk 255 0 0).b :: (Pixel.mk 255 0 0).r :: (Pixel.mk 255 0 0).g :: (Pixel.mk 255 0 0).b :: (Pixel.mk 255 0 0).r :: (Pixel.mk 255 0 0).g :: (Pixel.mk 255 0 0).b :: (Pixel.mk 255 0 0).r :: (Pixel.mk 255 0 0).g :: (Pixel.mk 255 0 0).b :: (Pixel.mk 36 221 37).r :: (Pixel.mk 36 221 37).g :: (Pixel.mk 36 221 37).b :: (Pixel.mk 168 0 0).r :: (Pixel.mk 168 0 0).g :: (Pixel.mk 168 0 0).b ::
        List.replicate (3 * 1016) 0 := by
    unfold collisionFrame
    rw [frameBytes_cons, frameBytes_cons, frameBytes_cons, frameBytes_cons,
      frameBytes_cons, frameBytes_cons, frameBytes_cons, frameBytes_cons,
      frameBytes_replicate_zero]
  have h3 : crcStep (crcStep (crcStep (crcStep (crcStep (crcStep (crcStep (crcStep (crcStep (crcStep (crcStep (crcStep (crcStep (crcStep (crcStep (crcStep (crcStep (crcStep (crcStep (crcStep (crcStep (crcStep (crcStep (crcStep 4294967295 (Pixel.mk 255 0 0).r) (Pixel.mk 255 0 0).g) (Pixel.mk 255 0 0).b) (Pixel.mk 255 0 0).r) (Pixel.mk 255 0 0).g) (Pixel.mk 255 0 0).b) (Pixel.mk 255 0 0).r) (Pixel.mk 255 0 0).g) (Pixel.mk 255 0 0).b) (Pixel.mk 255 0 0).r) (Pixel.mk 255 0 0).g) (Pixel.mk 255 0 0).b) (Pixel.mk 255 0 0).r) (Pixel.mk 255 0 0).g) (Pixel.mk 255 0 0).b) (Pixel.mk 255 0 0).r) (Pixel.mk 255 0 0).g) (Pixel.mk 255 0 0).b) (Pixel.mk 36 221 37).r) (Pixel.mk 36 221 37).g) (Pixel.mk 36 221 37).b) (Pixel.mk 168 0 0).r) (Pixel.mk 168 0 0).g) (Pixel.mk 168 0 0).b = 1547580895 := by decide
  have h2 : List.foldl crcStep 4294967295 (frameBytes collisionFrame) = 2551789179 := by
    rw [h1]
    simp only [List.foldl_cons]
    rw [foldl_crcStep_replicate, (by norm_num : 3 * 1016 = 3048), h3, crc_reg_coll]
  rw [crc32_compute, h2]
  decide

/-- send_frame returns immediately, emitting nothing and leaving the
producer state unchanged, whenever the new frame's CRC32 equals the recorded
prev_crc: the producer's change test is CRC32 equality. -/
theorem send_frame_crc_equal (s : ProducerState) (f2 : Frame)
    (hprev : s.has_prev = true)
    (heq : crc32_compute (frameBytes f2) = s.prev_crc) :
    send_frame s f2 = (none, s) := by
  simp only [send_frame]
  rw [if_pos ⟨hprev, heq⟩]

/-- Claim C3 (amended): for a producer state that has recorded a last-sent
frame (prev_crc being that frame's CRC32), the producer's change test is
CRC32 equality with the last-sent frame. When the new frame's CRC32 equals
the recorded one — always the case when the frames are bytewise identical,
but also on a CRC32 collision between differing frames — no wire traffic is
emitted and the producer state is unchanged. When the CRC32 differs: a
changed-pixel count of at most 5 emits nothing but still records the frame
as sent; a count in (5, 600] emits exactly the delta message of the
changed-pixel set and records the frame as sent; a count above 600 emits
the full frame equal to the new frame and records the frame as sent. -/
theorem claim_C3_producer_policy (s : ProducerState) (f2 : Frame)
    (hprev : s.has_prev = true)
    (hcrc : s.prev_crc = crc32_compute (frameBytes s.prev_frame)) :
    (crc32_compute (frameBytes f2) = s.prev_crc → send_frame s f2 = (none, s)) ∧
    (f2 = s.prev_frame → (send_frame s f2).1 = none) ∧
    (crc32_compute (frameBytes f2) ≠ s.prev_crc →
      ((diffCount s.prev_frame f2 ≤ 5 →
         send_frame s f2 = (none, ⟨f2, crc32_compute (frameBytes f2), true⟩)) ∧
       (5 < diffCount s.prev_frame f2 → diffCount s.prev_frame f2 ≤ DELTA_THRESHOLD →
         send_frame s f2 =
           (some (.delta (encode_delta s.prev_frame f2)),
            ⟨f2, crc32_compute (frameBytes f2), true⟩)) ∧
       (DELTA_THRESHOLD < diffCount s.prev_frame f2 →
         send_frame s f2 =
           (some (.full (frameBytes f2)),
            ⟨f2, crc32_compute (frameBytes f2), true⟩)))) := by
  have hdC : diffCount s.prev_frame f2 =
      ((s.prev_frame.zip f2).filter fun ab => decide (ab.1 ≠ ab.2)).length := rfl
  refine ⟨?_, ?_, ?_⟩
  · intro heq
    exact send_frame_crc_equal s f2 hprev heq
  · intro hf2
    subst hf2
    simp [send_frame, hprev, hcrc]
  · intro hne
    have hif : ¬ (s.has_prev = true ∧ crc32_compute (frameBytes f2) = s.prev_crc) := by
      intro hc
      exact hne hc.2
    refine ⟨?_, ?_, ?_⟩
    · intro hle
      have hscan := deltaScan_complete (s.prev_frame.zip f2) 0 0
        (by rw [← hdC]; unfold DELTA_THRESHOLD; omega)
      have hsc1 : (deltaScan (s.prev_frame.zip f2) 0 0).1 =
          diffCount s.prev_frame f2 := by
        rw [hscan, ← hdC]
        simp
      simp only [send_frame]
      rw [if_neg hif, if_pos hprev, hsc1, if_pos hle]
    · intro h5 h600
      have hscan := deltaScan_complete (s.prev_frame.zip f2) 0 0 (by rw [← hdC]; omega)
      have hsc1 : (deltaScan (s.prev_frame.zip f2) 0 0).1 =
          diffCount s.prev_frame f2 := by
        rw [hscan, ← hdC]
        simp
      have hsc2 : (deltaScan (s.prev_frame.zip f2) 0 0).2 =
          recordsOf (s.prev_frame.zip f2) 0 := by
        rw [hscan]
      have henc : encode_delta s.prev_frame f2 =
          [diffCount s.prev_frame f2 &&& 255,
           (diffCount s.prev_frame f2 >>> 8) &&& 255] ++
            recordsOf (s.prev_frame.zip f2) 0 := by
        simp only [encode_delta]
        rw [hsc1, hsc2]
      simp only [send_frame]
      rw [if_neg hif, if_pos hprev, hsc1, hsc2, if_neg (by omega), if_pos h600, henc]
    · intro hover
      have hsc1 := deltaScan_overflow (s.prev_frame.zip f2) 0 0
        (by unfold DELTA_THRESHOLD; omega) (by rw [← hdC]; omega)
      simp only [send_frame]
      rw [if_neg hif, if_pos hprev, hsc1, if_neg (by decide), if_neg (by decide)]

/-- Concrete instance of claim C3's theorem: resending the identical black
frame produces no wire traffic. -/
theorem claim_C3_witness :
    (send_frame ⟨blackFrame, crc32_compute (frameBytes blackFrame), true⟩ blackFrame).1
      = none :=
  (claim_C3_producer_policy ⟨blackFrame, crc32_compute (frameBytes blackFrame), true⟩
    blackFrame rfl (by simp)).2.1 rfl

/-- Claim C3 counterexample, two instances. First: with exactly one changed
pixel — the frames are not bytewise identical and the count is not in
(5, 600] — the claim predicts a full frame, but send_frame emits nothing at
all: the code jumps to save for counts of at most 5. Second: collisionFrame
differs from blackFrame in eight pixels, a count in (5, 600] for which the
claim predicts a delta message, yet its CRC32 collides with blackFrame's
and send_frame again emits nothing: the producer's change test is CRC32
equality, not bytewise identity. -/
theorem claim_C3_counterexample :
    (diffCount blackFrame oneRedFrame = 1 ∧
      (send_frame ⟨blackFrame, crc32_compute (frameBytes blackFrame), true⟩
        oneRedFrame).1 = none) ∧
    (5 < diffCount blackFrame collisionFrame ∧
      diffCount blackFrame collisionFrame ≤ 600 ∧
      collisionFrame ≠ blackFrame ∧
      (send_frame ⟨blackFrame, crc32_compute (frameBytes blackFrame), true⟩
        collisionFrame).1 = none) := by
  constructor
  · have hd : ((blackFrame.zip oneRedFrame).filter fun ab =>
        decide (ab.1 ≠ ab.2)).length = 1 := by decide
    refine ⟨hd, ?_⟩
    have hscan := deltaScan_complete (blackFrame.zip oneRedFrame) 0 0
      (by rw [hd]; decide)
    have hsc1 : (deltaScan (blackFrame.zip oneRedFrame) 0 0).1 = 1 := by
      rw [hscan, hd]
    have hne : crc32_compute (frameBytes oneRedFrame) ≠
        crc32_compute (frameBytes blackFrame) := by
      rw [crc32_blackFrame, crc32_oneRedFrame]
      decide
    simp only [send_frame]
    rw [if_neg (fun hc => hne hc.2), if_pos trivial, hsc1, if_pos (by decide)]
  · refine ⟨by decide, by decide, by decide, ?_⟩
    have hstop := send_frame_crc_equal
      ⟨blackFrame, crc32_compute (frameBytes blackFrame), true⟩ collisionFrame rfl
      (by simp [crc32_collisionFrame, crc32_blackFrame])
    rw [hstop]

/-- Claim C10 evaluation: after appending an inbound segment, the NUL
terminator index recv_append can reach MAX_REQUEST_SIZE itself — a single
full-size segment drives it to 16384, one past the last valid index of the
16384-byte malloc'd buffer, refuting the claimed strict bound. -/
theorem claim_C10_terminator_at_buffer_end :
    recv_append 0 16384 = MAX_REQUEST_SIZE ∧
    ¬ recv_append 0 16384 < MAX_REQUEST_SIZE := by
  constructor
  · rfl
  · decide

end Unicorn
